import Mathlib

/-!
Shallow embedding of the Shrishay Foundation backend's reference-integrity
and soft-delete core (Event/Blog controllers, Media model, validators).

Conventions of the embedding:
* MongoDB ObjectIds are modelled as `Nat`; wall-clock instants (`Date.now()`,
  `new Date()`) as `Nat` milliseconds passed explicitly to each operation.
* A collection is a function from id to `Option` document; `findByIdAndUpdate`
  and `updateMany` become pointwise function updates.  Mongoose's
  `pre(/^find/)` hook (which hides soft-deleted documents unless the query
  sets `includeDeleted`) applies to `findById` / `findByIdAndUpdate` /
  `findOne`, but *not* to `updateMany`, and the embedding reproduces that
  asymmetry exactly as in the source.
* `$push` appends to the `usedIn` array; `$pull cond` removes every array
  element matching `cond` (a partial document: `{model, modelId}` matches on
  those two fields only, `{model, modelId, field}` on all three).
* Controllers that `throw new ApiError(status, msg)` before writing are
  modelled as `Except ApiErr` values whose error branch carries no new state.
* Display-only derived fields that no claim or invariant mentions are omitted
  from the document structures (Event: `dateDay`/`dateMonth`; Blog: `excerpt`,
  `content`, `category`, `isFeatured`, `readTime`, `author`, `videoUrl`, SEO
  and tag fields; Media: file metadata such as `filename`/`path`/`url`/
  `dimensions`).  Every field any claim touches is present.
-/

set_option autoImplicit false

namespace Shrishay

abbrev MediaId := Nat
abbrev EntityId := Nat
abbrev UserId := Nat
abbrev Millis := Nat

/-- Content kind discriminator stored in `usedIn.model` (`'Event' | 'Blog'`). -/
inductive EntityKind where
  | event
  | blog
deriving DecidableEq, Repr

/-- The `field` component of a usage tuple (`heroImage`, `gallery`, `video`). -/
inductive UsageField where
  | heroImage
  | gallery
  | video
deriving DecidableEq, Repr

/-- One element of `Media.usedIn`: `{model, modelId, field}` (models/Media.js). -/
structure UsageTuple where
  model : EntityKind
  modelId : EntityId
  field : UsageField
deriving DecidableEq, Repr

/-- A media document, restricted to the fields the reference-integrity logic
reads or writes: the `usedIn` usage array and the soft-delete flag. -/
structure MediaDoc where
  usedIn : List UsageTuple
  isDeleted : Bool
deriving DecidableEq, Repr

/-- The media collection, keyed by id. -/
abbrev MediaDB := MediaId → Option MediaDoc

/-- `Media.findById(id)` without `includeDeleted`: the `pre(/^find/)` hook in
models/Media.js adds `isDeleted: {$ne: true}`, so soft-deleted documents are
invisible. -/
def mediaFindById (db : MediaDB) (id : MediaId) : Option MediaDoc :=
  match db id with
  | some d => if d.isDeleted then none else some d
  | none => none

/-- `Media.findByIdAndUpdate(id, upd)` without `includeDeleted`: the update is
applied only when the document exists and is not soft-deleted (the find hook
filters it out otherwise); a missing or filtered match is a silent no-op. -/
def mediaFindByIdAndUpdate (db : MediaDB) (id : MediaId) (f : MediaDoc → MediaDoc) :
    MediaDB :=
  fun m =>
    if m = id then
      match db m with
      | some d => if d.isDeleted then some d else some (f d)
      | none => none
    else db m

/-- `Media.updateMany({_id: {$in: ids}}, upd)`: applied once to every existing
document whose id is listed, *including* soft-deleted ones (the `pre(/^find/)`
hook does not fire for `updateMany`). -/
def mediaUpdateMany (db : MediaDB) (ids : List MediaId) (f : MediaDoc → MediaDoc) :
    MediaDB :=
  fun m => if m ∈ ids then (db m).map f else db m

/-- The `$push: {usedIn: t}` update: unconditionally appends `t`. -/
def pushUsage (t : UsageTuple) (d : MediaDoc) : MediaDoc :=
  { d with usedIn := d.usedIn ++ [t] }

/-- The `$pull: {usedIn: {model, modelId, field}}` update: removes every
element equal to `t` on all three named fields (i.e. every copy of `t`). -/
def pullUsageField (t : UsageTuple) (d : MediaDoc) : MediaDoc :=
  { d with usedIn := d.usedIn.filter (fun u => u ≠ t) }

/-- The `$pull: {usedIn: {model, modelId}}` update used by the soft-delete
controllers: removes every element whose `model` and `modelId` match,
whatever its `field`. -/
def pullUsageEntity (k : EntityKind) (eid : EntityId) (d : MediaDoc) : MediaDoc :=
  { d with usedIn := d.usedIn.filter (fun u => ¬(u.model = k ∧ u.modelId = eid)) }

/-- `mediaSchema.methods.addUsage` (models/Media.js:88-103): push the tuple
only if no element with the same `model`, `modelId` and `field` exists. -/
def MediaDoc.addUsage (d : MediaDoc) (t : UsageTuple) : MediaDoc :=
  if d.usedIn.any (fun u =>
      u.model = t.model ∧ u.modelId = t.modelId ∧ u.field = t.field) then
    d
  else
    { d with usedIn := d.usedIn ++ [t] }

/-- `mediaSchema.methods.removeUsage` (models/Media.js:106-114): keep every
element that does not match on `model`, `modelId` and `field`. -/
def MediaDoc.removeUsage (d : MediaDoc) (t : UsageTuple) : MediaDoc :=
  { d with usedIn := d.usedIn.filter (fun u =>
      ¬(u.model = t.model ∧ u.modelId = t.modelId ∧ u.field = t.field)) }

/-- The virtual `isInUse` (models/Media.js:83-85): `usedIn.length > 0`. -/
def MediaDoc.isInUse (d : MediaDoc) : Bool :=
  decide (0 < d.usedIn.length)

/-- An `ApiError(statusCode, message)` thrown by a controller. -/
structure ApiErr where
  status : Nat
  message : String
deriving DecidableEq, Repr

/-- `deleteMedia` (controllers/media.controller.js:187-224): look the asset up
through the deleted-filtering find, refuse with a 400 when `isInUse`, and
otherwise remove the record (`deleteOne`).  Physical file removal is the
external file-store collaborator and is not part of the core state. -/
def deleteMedia (db : MediaDB) (id : MediaId) : Except ApiErr MediaDB :=
  match mediaFindById db id with
  | none => .error ⟨404, "Media not found"⟩
  | some m =>
    if m.isInUse then
      .error ⟨400, "Cannot delete media that is currently in use"⟩
    else
      .ok (fun x => if x = id then none else db x)

/-! ### Slug generation

`eventSchema.pre('save')` and `blogSchema.pre('save')` both compute
`slugify(title, {lower, strict, remove: /[*+~.()'"!:@]/g})` and append
`` `-${Date.now()}` ``.  `natDecimal` is the decimal rendering of the
timestamp produced by the template literal, written as an explicit recursion
so that its injectivity can be proved. -/

/-- Decimal digit to its character. -/
def digitChar (d : Nat) : Char :=
  if d = 0 then '0' else if d = 1 then '1' else if d = 2 then '2'
  else if d = 3 then '3' else if d = 4 then '4' else if d = 5 then '5'
  else if d = 6 then '6' else if d = 7 then '7' else if d = 8 then '8'
  else '9'

/-- Little-endian decimal digits of a positive number (empty for 0). -/
def digitsRev : Nat → List Nat
  | 0 => []
  | n + 1 => ((n + 1) % 10) :: digitsRev ((n + 1) / 10)
decreasing_by exact Nat.div_lt_self (Nat.succ_pos n) (by decide)

/-- Little-endian digits with the zero case normalised to `[0]`, matching the
rendering `` `${0}` = "0" ``. -/
def normDigits (n : Nat) : List Nat :=
  if n = 0 then [0] else digitsRev n

/-- Value of a little-endian digit list (left inverse of `normDigits`). -/
def undigits : List Nat → Nat
  | [] => 0
  | d :: rest => d + 10 * undigits rest

/-- Decimal string of a natural number, as produced by `` `${n}` ``. -/
def natDecimal (n : Nat) : String :=
  ⟨(normDigits n).reverse.map digitChar⟩

/-- Characters removed by the `remove: /[*+~.()'"!:@]/g` option. -/
def slugRemoveChars : List Char :=
  ['*', '+', '~', '.', '(', ')', '\'', '"', '!', ':', '@']

/-- The `slugify(title, {lower: true, strict: true, remove})` call: drop the
removed characters, keep only alphanumerics and whitespace (strict mode),
lowercase, then join the whitespace-separated words with hyphens. -/
def slugify (title : String) : String :=
  let kept := title.data.filter (fun c => !(slugRemoveChars.contains c))
  let strictKept := kept.filter (fun c => c.isAlphanum || c = ' ')
  let lowered := strictKept.map Char.toLower
  let words := (lowered.splitOn ' ').filter (fun w => !w.isEmpty)
  ⟨List.intercalate ['-'] words⟩

/-- The slug written by both pre-save hooks when the title is modified:
`slugify(title) + "-" + Date.now()`. -/
def genSlug (title : String) (now : Millis) : String :=
  slugify title ++ "-" ++ natDecimal now

/-! ### Event model and controller -/

/-- The `status` enum shared by events and blogs. -/
inductive ContentStatus where
  | draft
  | published
  | archived
deriving DecidableEq, Repr

/-- The event `type` enum (`'featured' | 'normal'`). -/
inductive EventKind where
  | featured
  | normal
deriving DecidableEq, Repr

/-- An event document (models/Event.js), restricted to the fields the claims
mention (the derived display fields `dateDay`/`dateMonth` are omitted). -/
structure EventDoc where
  title : String
  slug : String
  description : String
  time : String
  location : String
  datetime : Millis
  type : EventKind
  status : ContentStatus
  heroImage : Option MediaId
  gallery : List MediaId
  seoTitle : String
  seoDescription : String
  tags : List String
  publishedAt : Option Millis
  views : Nat
  createdBy : UserId
  updatedBy : UserId
  isDeleted : Bool
  deletedAt : Option Millis
deriving DecidableEq, Repr

abbrev EventDB := EntityId → Option EventDoc

/-- `Event.findById(id)` without `includeDeleted`: hidden when soft-deleted
(the `pre(/^find/)` hook in models/Event.js:439-444). -/
def eventFindById (db : EventDB) (id : EntityId) : Option EventDoc :=
  match db id with
  | some e => if e.isDeleted then none else some e
  | none => none

/-- `eventSchema.pre('save')` (models/Event.js:391-422): regenerate the slug
when the title is modified (for a new document every set path counts as
modified), and stamp `publishedAt` on the first save whose status is modified
to `published` while `publishedAt` is still unset.  `old` is the persisted
snapshot (`none` for a freshly created document); a path is modified when its
value differs from the snapshot. -/
def eventSaveHook (old : Option EventDoc) (d : EventDoc) (now : Millis) : EventDoc :=
  let titleModified : Bool :=
    match old with
    | none => true
    | some o => d.title != o.title
  let statusModified : Bool :=
    match old with
    | none => true
    | some o => d.status != o.status
  let d1 := if titleModified then { d with slug := genSlug d.title now } else d
  if statusModified && d1.status == .published && d1.publishedAt.isNone then
    { d1 with publishedAt := some now }
  else d1

/-- A blog document (models/Blog.js), restricted to the fields the claims
mention (omitted: `excerpt`, `content`, `category`, `isFeatured`, `videoUrl`,
SEO/tag fields, `author`, `readTime`). -/
structure BlogDoc where
  title : String
  slug : String
  status : ContentStatus
  heroImage : Option MediaId
  gallery : List MediaId
  video : Option MediaId
  publishedAt : Option Millis
  views : Nat
  createdBy : UserId
  updatedBy : UserId
  isDeleted : Bool
  deletedAt : Option Millis
deriving DecidableEq, Repr

abbrev BlogDB := EntityId → Option BlogDoc

/-- `Blog.findById(id)` without `includeDeleted` (models/Blog.js:616-621). -/
def blogFindById (db : BlogDB) (id : EntityId) : Option BlogDoc :=
  match db id with
  | some b => if b.isDeleted then none else some b
  | none => none

/-- `blogSchema.pre('save')` (models/Blog.js:567-591): identical slug and
`publishedAt` logic to the event hook (the `readTime` branch acts only on the
omitted `content` field). -/
def blogSaveHook (old : Option BlogDoc) (d : BlogDoc) (now : Millis) : BlogDoc :=
  let titleModified : Bool :=
    match old with
    | none => true
    | some o => d.title != o.title
  let statusModified : Bool :=
    match old with
    | none => true
    | some o => d.status != o.status
  let d1 := if titleModified then { d with slug := genSlug d.title now } else d
  if statusModified && d1.status == .published && d1.publishedAt.isNone then
    { d1 with publishedAt := some now }
  else d1

/-- The whole persistent state the content controllers touch. -/
structure DB where
  events : EventDB
  blogs : BlogDB
  media : MediaDB

/-- The body accepted by `createSchema` (validators/event.validator.js:8-72),
with the schema defaults (`type: normal`, `status: draft`). -/
structure EventCreate where
  title : String
  description : String := ""
  time : String := ""
  location : String := ""
  datetime : Millis := 0
  type : EventKind := .normal
  status : ContentStatus := .draft
  heroImage : Option MediaId := none
  gallery : List MediaId := []
  seoTitle : String := ""
  seoDescription : String := ""
  tags : List String := []
deriving Repr

/-- `createEvent` (event controller, lines 389-435): build the document (slug
and `publishedAt` via the save hook), then `$push` the `heroImage` usage tuple
through `findByIdAndUpdate` and the `gallery` tuples through `updateMany`.
`newId` stands for the ObjectId Mongo assigns to the new document. -/
def createEvent (db : DB) (newId : EntityId) (data : EventCreate)
    (actor : UserId) (now : Millis) : DB :=
  let e0 : EventDoc :=
    { title := data.title, slug := "", description := data.description,
      time := data.time, location := data.location, datetime := data.datetime,
      type := data.type, status := data.status, heroImage := data.heroImage,
      gallery := data.gallery, seoTitle := data.seoTitle,
      seoDescription := data.seoDescription, tags := data.tags,
      publishedAt := none, views := 0, createdBy := actor, updatedBy := actor,
      isDeleted := false, deletedAt := none }
  let e := eventSaveHook none e0 now
  let events' : EventDB := fun i => if i = newId then some e else db.events i
  let m1 :=
    match e.heroImage with
    | some h =>
        mediaFindByIdAndUpdate db.media h (pushUsage ⟨.event, newId, .heroImage⟩)
    | none => db.media
  let m2 :=
    if e.gallery ≠ [] then
      mediaUpdateMany m1 e.gallery (pushUsage ⟨.event, newId, .gallery⟩)
    else m1
  { db with events := events', media := m2 }

/-- A PATCH body that survived `updateSchema` validation: exactly the fields
the schema declares, each optional.  `heroImage` may be set to `null`
(`allow(null)`), hence the nested option. -/
structure EventPatch where
  title : Option String := none
  description : Option String := none
  time : Option String := none
  location : Option String := none
  datetime : Option Millis := none
  type : Option EventKind := none
  status : Option ContentStatus := none
  heroImage : Option (Option MediaId) := none
  gallery : Option (List MediaId) := none
  seoTitle : Option String := none
  seoDescription : Option String := none
  tags : Option (List String) := none
deriving Repr

/-- `Object.assign(event, {...req.body, updatedBy: req.user._id})`: every
field present in the validated body overwrites the document's field. -/
def applyEventPatch (e : EventDoc) (p : EventPatch) (actor : UserId) : EventDoc :=
  { e with
    title := p.title.getD e.title,
    description := p.description.getD e.description,
    time := p.time.getD e.time,
    location := p.location.getD e.location,
    datetime := p.datetime.getD e.datetime,
    type := p.type.getD e.type,
    status := p.status.getD e.status,
    heroImage := p.heroImage.getD e.heroImage,
    gallery := p.gallery.getD e.gallery,
    seoTitle := p.seoTitle.getD e.seoTitle,
    seoDescription := p.seoDescription.getD e.seoDescription,
    tags := p.tags.getD e.tags,
    updatedBy := actor }

/-- The `heroImage` part of the update fixup (event controller lines 459-484,
blog controller lines 369-392): `$pull` the old hero tuple when the hero
changed, `$push` the new one when it changed, both through the
deleted-filtering `findByIdAndUpdate`. -/
def heroFixup (k : EntityKind) (media : MediaDB) (id : EntityId)
    (oldHero newHero : Option MediaId) : MediaDB :=
  let heroT : UsageTuple := ⟨k, id, .heroImage⟩
  let m1 :=
    match oldHero with
    | some a =>
        if newHero ≠ some a then
          mediaFindByIdAndUpdate media a (pullUsageField heroT)
        else media
    | none => media
  match newHero with
  | some b =>
      if oldHero ≠ some b then mediaFindByIdAndUpdate m1 b (pushUsage heroT)
      else m1
  | none => m1

/-- The `gallery` part of the update fixup (event controller lines 486-523,
blog controller lines 394-431): `$pull` the gallery tuple from removed ids
and `$push` it to added ids, via the unfiltered `updateMany`; ids present in
both the old and the new gallery are untouched. -/
def galleryFixup (k : EntityKind) (media : MediaDB) (id : EntityId)
    (oldGallery newGallery : List MediaId) : MediaDB :=
  let galT : UsageTuple := ⟨k, id, .gallery⟩
  let removed := oldGallery.filter (fun g => !(newGallery.contains g))
  let added := newGallery.filter (fun g => !(oldGallery.contains g))
  let m3 :=
    if removed ≠ [] then mediaUpdateMany media removed (pullUsageField galT)
    else media
  if added ≠ [] then mediaUpdateMany m3 added (pushUsage galT) else m3

/-- The `video` part of the blog update fixup (blog controller lines
433-456). -/
def videoFixup (media : MediaDB) (id : EntityId)
    (oldVideo newVideo : Option MediaId) : MediaDB :=
  let vidT : UsageTuple := ⟨.blog, id, .video⟩
  let m5 :=
    match oldVideo with
    | some v =>
        if newVideo ≠ some v then
          mediaFindByIdAndUpdate media v (pullUsageField vidT)
        else media
    | none => media
  match newVideo with
  | some w =>
      if oldVideo ≠ some w then mediaFindByIdAndUpdate m5 w (pushUsage vidT)
      else m5
  | none => m5

/-- The full media-usage bookkeeping run by `updateEvent` after the save:
hero fixup, then gallery fixup, in source order. -/
def eventMediaFixup (media : MediaDB) (id : EntityId)
    (oldHero : Option MediaId) (oldGallery : List MediaId)
    (newHero : Option MediaId) (newGallery : List MediaId) : MediaDB :=
  galleryFixup .event (heroFixup .event media id oldHero newHero) id
    oldGallery newGallery

/-- `updateEvent` (event controller, lines 440-533): find (deleted events are
invisible, hence 404), snapshot the old media ids, assign the patch, save
(running the hook), then run the usage fixup against the saved document. -/
def updateEvent (db : DB) (id : EntityId) (p : EventPatch)
    (actor : UserId) (now : Millis) : Except ApiErr DB :=
  match eventFindById db.events id with
  | none => .error ⟨404, "Event not found"⟩
  | some e =>
    let e1 := eventSaveHook (some e) (applyEventPatch e p actor) now
    let events' : EventDB := fun i => if i = id then some e1 else db.events i
    .ok { db with
        events := events',
        media := eventMediaFixup db.media id e.heroImage e.gallery e1.heroImage e1.gallery }

/-- The media phase of `deleteEvent` (event controller, lines 548-563):
one unfiltered `updateMany` pulling every `{model: Event, modelId: id}` usage
element from `[heroImage, ...gallery]`. -/
def deleteEventMedia (media : MediaDB) (id : EntityId) (e : EventDoc) : MediaDB :=
  let mediaIds :=
    (match e.heroImage with | some h => [h] | none => []) ++ e.gallery
  if mediaIds ≠ [] then mediaUpdateMany media mediaIds (pullUsageEntity .event id)
  else media

/-- `deleteEvent` (event controller, lines 538-569): find through the default
(deleted-hiding) query — so an already-deleted event yields the 404 branch —
then soft-delete and run the media pull phase. -/
def deleteEvent (db : DB) (id : EntityId) (now : Millis) : Except ApiErr DB :=
  match eventFindById db.events id with
  | none => .error ⟨404, "Event not found"⟩
  | some e =>
    let e1 := eventSaveHook (some e) { e with isDeleted := true, deletedAt := some now } now
    let events' : EventDB := fun i => if i = id then some e1 else db.events i
    .ok { db with events := events', media := deleteEventMedia db.media id e }

/-- The media phase of `restoreEvent` (event controller, lines 588-614):
`$push` the hero tuple via `findByIdAndUpdate` (which silently skips a
missing or soft-deleted asset) and the gallery tuples via the unfiltered
`updateMany`. -/
def restoreEventMedia (media : MediaDB) (id : EntityId) (e : EventDoc) : MediaDB :=
  let m1 :=
    match e.heroImage with
    | some h =>
        mediaFindByIdAndUpdate media h (pushUsage ⟨.event, id, .heroImage⟩)
    | none => media
  if e.gallery ≠ [] then
    mediaUpdateMany m1 e.gallery (pushUsage ⟨.event, id, .gallery⟩)
  else m1

/-- `restoreEvent` (event controller, lines 574-623): find with
`includeDeleted`, reject a non-deleted event with a 400, clear the soft-delete
flags, then run the media push phase.  On success the response is the fixed
message with no per-asset outcome. -/
def restoreEvent (db : DB) (id : EntityId) (now : Millis) :
    Except ApiErr (DB × String) :=
  match db.events id with
  | none => .error ⟨404, "Event not found"⟩
  | some e =>
    if e.isDeleted then
      let e1 := eventSaveHook (some e) { e with isDeleted := false, deletedAt := none } now
      let events' : EventDB := fun i => if i = id then some e1 else db.events i
      .ok ({ db with events := events', media := restoreEventMedia db.media id e },
        "Event restored successfully")
    else
      .error ⟨400, "Event is not deleted"⟩

/-! ### Blog controller -/

/-- A PATCH body for `updateBlog`: the blog fields the controller's media
bookkeeping reads.  `heroImage` is `required` by the schema, so a patch can
only replace it, while `video` may be cleared to `null`. -/
structure BlogPatch where
  title : Option String := none
  status : Option ContentStatus := none
  heroImage : Option MediaId := none
  gallery : Option (List MediaId) := none
  video : Option (Option MediaId) := none
deriving Repr

/-- `Object.assign(blog, {...req.body, updatedBy: req.user._id})`. -/
def applyBlogPatch (b : BlogDoc) (p : BlogPatch) (actor : UserId) : BlogDoc :=
  { b with
    title := p.title.getD b.title,
    status := p.status.getD b.status,
    heroImage := (p.heroImage.map some).getD b.heroImage,
    gallery := p.gallery.getD b.gallery,
    video := p.video.getD b.video,
    updatedBy := actor }

/-- The full media-usage bookkeeping run by `updateBlog` after the save:
hero fixup, gallery fixup, then video fixup, in source order. -/
def blogMediaFixup (media : MediaDB) (id : EntityId)
    (oldHero : Option MediaId) (oldGallery : List MediaId)
    (oldVideo : Option MediaId)
    (newHero : Option MediaId) (newGallery : List MediaId)
    (newVideo : Option MediaId) : MediaDB :=
  videoFixup
    (galleryFixup .blog (heroFixup .blog media id oldHero newHero) id
      oldGallery newGallery)
    id oldVideo newVideo

/-- `updateBlog` (blog controller, lines 348-466): same shape as
`updateEvent`, with the `video` field handled by the fixup as well. -/
def updateBlog (db : DB) (id : EntityId) (p : BlogPatch)
    (actor : UserId) (now : Millis) : Except ApiErr DB :=
  match blogFindById db.blogs id with
  | none => .error ⟨404, "Blog not found"⟩
  | some b =>
    let b1 := blogSaveHook (some b) (applyBlogPatch b p actor) now
    let blogs' : BlogDB := fun i => if i = id then some b1 else db.blogs i
    .ok { db with
        blogs := blogs',
        media := blogMediaFixup db.media id b.heroImage b.gallery b.video b1.heroImage b1.gallery b1.video }

/-- The media phase of `deleteBlog` (blog controller, lines 481-496): one
unfiltered `updateMany` pulling every `{model: Blog, modelId: id}` element
from `[heroImage, video, ...gallery]`. -/
def deleteBlogMedia (media : MediaDB) (id : EntityId) (b : BlogDoc) : MediaDB :=
  let mediaIds :=
    (match b.heroImage with | some h => [h] | none => [])
      ++ (match b.video with | some v => [v] | none => [])
      ++ b.gallery
  if mediaIds ≠ [] then mediaUpdateMany media mediaIds (pullUsageEntity .blog id)
  else media

/-- `deleteBlog` (blog controller, lines 471-502): soft-delete through the
default (deleted-hiding) find, then the media pull phase. -/
def deleteBlog (db : DB) (id : EntityId) (now : Millis) : Except ApiErr DB :=
  match blogFindById db.blogs id with
  | none => .error ⟨404, "Blog not found"⟩
  | some b =>
    let b1 := blogSaveHook (some b) { b with isDeleted := true, deletedAt := some now } now
    let blogs' : BlogDB := fun i => if i = id then some b1 else db.blogs i
    .ok { db with blogs := blogs', media := deleteBlogMedia db.media id b }

/-- The media phase of `restoreBlog` (blog controller, lines 521-569): push
the hero and video tuples through the deleted-filtering `findByIdAndUpdate`
(silently skipping missing or soft-deleted assets) and the gallery tuples
through the unfiltered `updateMany`. -/
def restoreBlogMedia (media : MediaDB) (id : EntityId) (b : BlogDoc) : MediaDB :=
  let m1 :=
    match b.heroImage with
    | some h =>
        mediaFindByIdAndUpdate media h (pushUsage ⟨.blog, id, .heroImage⟩)
    | none => media
  let m2 :=
    if b.gallery ≠ [] then
      mediaUpdateMany m1 b.gallery (pushUsage ⟨.blog, id, .gallery⟩)
    else m1
  match b.video with
  | some v =>
      mediaFindByIdAndUpdate m2 v (pushUsage ⟨.blog, id, .video⟩)
  | none => m2

/-- `restoreBlog` (blog controller, lines 507-577): find with
`includeDeleted`, reject a non-deleted blog with a 400, clear the soft-delete
flags, then run the media push phase. -/
def restoreBlog (db : DB) (id : EntityId) (now : Millis) :
    Except ApiErr (DB × String) :=
  match db.blogs id with
  | none => .error ⟨404, "Blog not found"⟩
  | some b =>
    if b.isDeleted then
      let b1 := blogSaveHook (some b) { b with isDeleted := false, deletedAt := none } now
      let blogs' : BlogDB := fun i => if i = id then some b1 else db.blogs i
      .ok ({ db with blogs := blogs', media := restoreBlogMedia db.media id b },
        "Blog restored successfully")
    else
      .error ⟨400, "Blog is not deleted"⟩

/-! ### Request validation (middleware/validateRequest.js + event updateSchema) -/

/-- A raw `req.body` for `PATCH /events/:id`, including fields an arbitrary
client may send that the `updateSchema` does not declare. -/
structure EventUpdateBody where
  title : Option String := none
  description : Option String := none
  time : Option String := none
  location : Option String := none
  datetime : Option Millis := none
  type : Option EventKind := none
  status : Option ContentStatus := none
  heroImage : Option (Option MediaId) := none
  gallery : Option (List MediaId) := none
  seoTitle : Option String := none
  seoDescription : Option String := none
  tags : Option (List String) := none
  views : Option Nat := none
  isDeleted : Option Bool := none
  deletedAt : Option Millis := none
  createdBy : Option UserId := none
  updatedBy : Option UserId := none
  publishedAt : Option Millis := none
  slug : Option String := none
deriving Repr

/-- Whether at least one field declared by `updateSchema` is present
(the schema's `.min(1)`). -/
def eventUpdateBodyHasKnownField (b : EventUpdateBody) : Bool :=
  b.title.isSome || b.description.isSome || b.time.isSome || b.location.isSome
    || b.datetime.isSome || b.type.isSome || b.status.isSome
    || b.heroImage.isSome || b.gallery.isSome || b.seoTitle.isSome
    || b.seoDescription.isSome || b.tags.isSome

/-- The `updateSchema` length constraints on the provided fields (id-format
checks are vacuous in the embedding, where ids are already numerals). -/
def eventUpdateBodyValid (b : EventUpdateBody) : Bool :=
  (b.title.all fun t => t.length ≤ 200)
    && (b.description.all fun t => t.length ≤ 5000)
    && (b.location.all fun t => t.length ≤ 200)
    && (b.seoTitle.all fun t => t.length ≤ 70)
    && (b.seoDescription.all fun t => t.length ≤ 160)
    && eventUpdateBodyHasKnownField b

/-- `validateRequest(updateSchema)` (middleware/validateRequest.js:9-33):
validate with `stripUnknown: true` and replace `req.body` with the validated
value — so the patch handed to the controller holds exactly the fields the
schema declares, and `views`, `isDeleted`, `deletedAt`, `createdBy`,
`updatedBy`, `publishedAt` and `slug` are dropped. -/
def validateEventUpdate (b : EventUpdateBody) : Except ApiErr EventPatch :=
  if eventUpdateBodyValid b then
    .ok { title := b.title, description := b.description, time := b.time,
          location := b.location, datetime := b.datetime, type := b.type,
          status := b.status, heroImage := b.heroImage, gallery := b.gallery,
          seoTitle := b.seoTitle, seoDescription := b.seoDescription,
          tags := b.tags }
  else
    .error ⟨400, "Validation failed"⟩

/-- The full `PATCH /events/:id` pipeline: `validateRequest(updateSchema)`
followed by the controller. -/
def handleEventUpdate (db : DB) (id : EntityId) (b : EventUpdateBody)
    (actor : UserId) (now : Millis) : Except ApiErr DB :=
  match validateEventUpdate b with
  | .error err => .error err
  | .ok p => updateEvent db id p actor now

/-- A raw `req.body` for `PATCH /blogs/:id`: the fields the blog
`updateSchema` (validators/blog.validator.js) declares — `title`, `excerpt`,
`content`, `category`, `isFeatured`, `status`, `heroImage`, `gallery`,
`video` (nullable), `videoUrl`, `seoTitle`, `seoDescription`, `tags` —
plus fields an arbitrary client may send that it does not declare. -/
structure BlogUpdateBody where
  title : Option String := none
  excerpt : Option String := none
  content : Option String := none
  category : Option String := none
  isFeatured : Option Bool := none
  status : Option ContentStatus := none
  heroImage : Option MediaId := none
  gallery : Option (List MediaId) := none
  video : Option (Option MediaId) := none
  videoUrl : Option String := none
  seoTitle : Option String := none
  seoDescription : Option String := none
  tags : Option (List String) := none
  views : Option Nat := none
  isDeleted : Option Bool := none
  deletedAt : Option Millis := none
  createdBy : Option UserId := none
  updatedBy : Option UserId := none
  publishedAt : Option Millis := none
  slug : Option String := none
deriving Repr

/-- Whether at least one field declared by the blog `updateSchema` is present
(the schema's `.min(1)`). -/
def blogUpdateBodyHasKnownField (b : BlogUpdateBody) : Bool :=
  b.title.isSome || b.excerpt.isSome || b.content.isSome || b.category.isSome
    || b.isFeatured.isSome || b.status.isSome || b.heroImage.isSome
    || b.gallery.isSome || b.video.isSome || b.videoUrl.isSome
    || b.seoTitle.isSome || b.seoDescription.isSome || b.tags.isSome

/-- The blog `updateSchema` length constraints on the provided fields
(id-format and URI checks are vacuous in the embedding, where ids are
numerals and URLs plain strings). -/
def blogUpdateBodyValid (b : BlogUpdateBody) : Bool :=
  (b.title.all fun t => t.length ≤ 200)
    && (b.excerpt.all fun t => t.length ≤ 500)
    && (b.seoTitle.all fun t => t.length ≤ 70)
    && (b.seoDescription.all fun t => t.length ≤ 160)
    && blogUpdateBodyHasKnownField b

/-- `validateRequest(updateSchema)` for blogs: validate with
`stripUnknown: true` and replace `req.body` with the validated value — so
`views`, `isDeleted`, `deletedAt`, `createdBy`, `updatedBy`, `publishedAt`
and `slug` are dropped.  Of the surviving schema fields the patch keeps the
ones the embedded `BlogDoc` projection carries (`excerpt`, `content`,
`category`, `isFeatured`, `videoUrl` and the SEO fields are outside the
projection and touch no field the claims observe). -/
def validateBlogUpdate (b : BlogUpdateBody) : Except ApiErr BlogPatch :=
  if blogUpdateBodyValid b then
    .ok { title := b.title, status := b.status, heroImage := b.heroImage,
          gallery := b.gallery, video := b.video }
  else
    .error ⟨400, "Validation failed"⟩

/-- The full `PATCH /blogs/:id` pipeline: `validateRequest(updateSchema)`
followed by the controller. -/
def handleBlogUpdate (db : DB) (id : EntityId) (b : BlogUpdateBody)
    (actor : UserId) (now : Millis) : Except ApiErr DB :=
  match validateBlogUpdate b with
  | .error err => .error err
  | .ok p => updateBlog db id p actor now

/-! ### Observations and basic lemmas -/

/-- Number of copies of tuple `t` in asset `m`'s `usedIn` array
(`0` when the asset record does not exist). -/
def usageCount (db : MediaDB) (m : MediaId) (t : UsageTuple) : Nat :=
  match db m with
  | some d => d.usedIn.count t
  | none => 0

/-- The media ids an event references (`[heroImage, ...gallery]`). -/
def eventRefs (e : EventDoc) : List MediaId :=
  (match e.heroImage with | some h => [h] | none => []) ++ e.gallery

/-- The media ids a blog references (`[heroImage, video, ...gallery]`). -/
def blogRefs (b : BlogDoc) : List MediaId :=
  (match b.heroImage with | some h => [h] | none => [])
    ++ (match b.video with | some v => [v] | none => [])
    ++ b.gallery

/-- How many copies of tuple `t` asset `m` should carry on account of event
`eid` with document `e` (invariant I1: one per referencing field). -/
def eventOwnCount (e : EventDoc) (eid : EntityId) (m : MediaId) (t : UsageTuple) : Nat :=
  (if t = ⟨.event, eid, .heroImage⟩ ∧ e.heroImage = some m then 1 else 0)
    + (if t = ⟨.event, eid, .gallery⟩ ∧ m ∈ e.gallery then 1 else 0)

/-- How many copies of tuple `t` asset `m` should carry on account of blog
`bid` with document `b`. -/
def blogOwnCount (b : BlogDoc) (bid : EntityId) (m : MediaId) (t : UsageTuple) : Nat :=
  (if t = ⟨.blog, bid, .heroImage⟩ ∧ b.heroImage = some m then 1 else 0)
    + (if t = ⟨.blog, bid, .gallery⟩ ∧ m ∈ b.gallery then 1 else 0)
    + (if t = ⟨.blog, bid, .video⟩ ∧ b.video = some m then 1 else 0)

/-- One admin mutation against the event collection, as dispatched by
routes/event.routes.js (`PATCH /:id`, `DELETE /:id`, `POST /:id/restore`). -/
inductive AdminOp where
  | update (id : EntityId) (p : EventPatch) (actor : UserId) (now : Millis)
  | softDelete (id : EntityId) (now : Millis)
  | restore (id : EntityId) (now : Millis)

/-- Run one admin operation; a thrown `ApiError` leaves the store unchanged
(all throws happen before any write). -/
def stepOp (db : DB) : AdminOp → DB
  | .update id p actor now =>
      match updateEvent db id p actor now with
      | .ok db' => db'
      | .error _ => db
  | .softDelete id now =>
      match deleteEvent db id now with
      | .ok db' => db'
      | .error _ => db
  | .restore id now =>
      match restoreEvent db id now with
      | .ok (db', _) => db'
      | .error _ => db

/-- Run a sequence of admin operations. -/
def runOps (db : DB) : List AdminOp → DB
  | [] => db
  | op :: rest => runOps (stepOp db op) rest

/-! ### Concrete states used by the witnesses and counterexamples -/

/-- Media store with one unused live asset (id 1) and one in-use live asset
(id 2). -/
def dbC5 : MediaDB := fun m =>
  if m = 1 then some ⟨[], false⟩
  else if m = 2 then some ⟨[⟨.event, 7, .heroImage⟩], false⟩
  else none

/-- Media store with one live asset that is not yet used anywhere. -/
def dbC4 : MediaDB := fun m =>
  if m = 1 then some ⟨[], false⟩ else none

/-- A plain live draft event with no media references. -/
def baseEvent : EventDoc :=
  { title := "Charity Gala", slug := "charity-gala-0", description := "desc",
    time := "8:00 am - 12:30 pm", location := "Delhi", datetime := 0,
    type := .normal, status := .draft, heroImage := none, gallery := [],
    seoTitle := "", seoDescription := "", tags := [], publishedAt := none,
    views := 0, createdBy := 9, updatedBy := 9, isDeleted := false,
    deletedAt := none }

/-- Store with a soft-deleted event (id 1) and a live event (id 2). -/
def dbC6 : DB :=
  { events := fun i =>
      if i = 1 then some { baseEvent with isDeleted := true, deletedAt := some 5 }
      else if i = 2 then some baseEvent
      else none,
    blogs := fun _ => none,
    media := fun _ => none }

/-- Store with a single live event, used to race two updates. -/
def dbC9 : DB :=
  { events := fun i => if i = 1 then some baseEvent else none,
    blogs := fun _ => none,
    media := fun _ => none }

/-- First racing update: move the event to Mumbai. -/
def patchC9A : EventPatch := { location := some "Mumbai" }

/-- Second racing update, issued from the same stale read: move it to Pune. -/
def patchC9B : EventPatch := { location := some "Pune" }

/-- Store with one already-published event (`publishedAt = 50`). -/
def dbC8 : DB :=
  { events := fun i =>
      if i = 1 then some { baseEvent with status := .published, publishedAt := some 50 }
      else none,
    blogs := fun _ => none,
    media := fun _ => none }

/-- Status churn after publication: unpublish, then publish again. -/
def opsC8 : List AdminOp :=
  [.update 1 { status := some .draft } 9 100,
   .update 1 { status := some .published } 9 200]

/-- A draft event about to be published for the first time. -/
def dPubC8 : EventDoc := { baseEvent with status := .published }

/-- A plain live draft blog. -/
def baseBlog : BlogDoc :=
  { title := "Hello World", slug := "hello-world-0", status := .draft,
    heroImage := some 21, gallery := [], video := none, publishedAt := none,
    views := 0, createdBy := 9, updatedBy := 9, isDeleted := false,
    deletedAt := none }

/-- A draft blog about to be published for the first time. -/
def dPubBlogC8 : BlogDoc := { baseBlog with status := .published }

/-- An empty store to create events into. -/
def dbC3 : DB :=
  { events := fun _ => none, blogs := fun _ => none, media := fun _ => none }

/-- A creation body with just a title (the slug input). -/
def dataC3 : EventCreate := { title := "Charity Gala" }

/-- Two creations of `dataC3` falling in the same millisecond (1000). -/
def dbC3After : DB := createEvent (createEvent dbC3 1 dataC3 9 1000) 2 dataC3 9 1000

/-- Event 1 with hero asset 11 and gallery asset 13. -/
def evC1 : EventDoc := { baseEvent with heroImage := some 11, gallery := [13] }

/-- Blog 1 with hero asset 11 and gallery asset 13. -/
def blC1 : BlogDoc := { baseBlog with heroImage := some 11, gallery := [13] }

/-- Asset 11: hero of both event 1 and blog 1. -/
def mdHeroC1 : MediaDoc :=
  ⟨[⟨.event, 1, .heroImage⟩, ⟨.blog, 1, .heroImage⟩], false⟩

/-- Asset 12: unused, the replacement hero. -/
def mdNewC1 : MediaDoc := ⟨[], false⟩

/-- Asset 13: in both galleries. -/
def mdGalC1 : MediaDoc :=
  ⟨[⟨.event, 1, .gallery⟩, ⟨.blog, 1, .gallery⟩], false⟩

/-- Store for the C1 witness. -/
def dbC1 : DB :=
  { events := fun i => if i = 1 then some evC1 else none,
    blogs := fun i => if i = 1 then some blC1 else none,
    media := fun m =>
      if m = 11 then some mdHeroC1
      else if m = 12 then some mdNewC1
      else if m = 13 then some mdGalC1
      else none }

/-- Event patch replacing hero 11 by 12 and leaving the gallery alone. -/
def patchC1 : EventPatch := { heroImage := some (some 12) }

/-- Blog patch replacing hero 11 by 12 and leaving the gallery alone. -/
def patchC1Blog : BlogPatch := { heroImage := some 12 }

/-- Event 1 with hero 41 and gallery [42], for the round-trip witness. -/
def evC2 : EventDoc := { baseEvent with heroImage := some 41, gallery := [42] }

/-- Blog 2 with hero 41, gallery [42] and video 43. -/
def blC2 : BlogDoc :=
  { baseBlog with heroImage := some 41, gallery := [42], video := some 43 }

/-- Store for the C2 witness, with consistent usage records. -/
def dbC2 : DB :=
  { events := fun i => if i = 1 then some evC2 else none,
    blogs := fun i => if i = 2 then some blC2 else none,
    media := fun m =>
      if m = 41 then
        some ⟨[⟨.event, 1, .heroImage⟩, ⟨.blog, 2, .heroImage⟩], false⟩
      else if m = 42 then
        some ⟨[⟨.event, 1, .gallery⟩, ⟨.blog, 2, .gallery⟩], false⟩
      else if m = 43 then some ⟨[⟨.blog, 2, .video⟩], false⟩
      else none }

/-- A soft-deleted event whose hero asset 31 is itself soft-deleted and whose
gallery asset 32 is live. -/
def evC7 : EventDoc :=
  { baseEvent with
    heroImage := some 31, gallery := [32], isDeleted := true, deletedAt := some 5 }

/-- The soft-deleted hero asset. -/
def mdDelHeroC7 : MediaDoc := ⟨[], true⟩

/-- The live gallery asset. -/
def mdGalC7 : MediaDoc := ⟨[], false⟩

/-- Store for the C7 scenario. -/
def dbC7 : DB :=
  { events := fun i => if i = 1 then some evC7 else none,
    blogs := fun _ => none,
    media := fun m =>
      if m = 31 then some mdDelHeroC7
      else if m = 32 then some mdGalC7
      else none }

/-- Store for the C10 witness: just the base event at id 1. -/
def dbC10 : DB :=
  { events := fun i => if i = 1 then some baseEvent else none,
    blogs := fun _ => none,
    media := fun _ => none }

/-- A malicious PATCH body: a legitimate title/status change plus attempts to
forge `views`, `isDeleted`, `slug`, `publishedAt` and `createdBy`. -/
def bodyC10 : EventUpdateBody :=
  { title := some "Gala Night", status := some .published,
    views := some 999, isDeleted := some true, deletedAt := some 1,
    createdBy := some 666, publishedAt := some 123, slug := some "forged" }

/-- The store produced by running the C10 update pipeline. -/
def dbC10res : DB :=
  match handleEventUpdate dbC10 1 bodyC10 9 700 with
  | .ok d => d
  | .error _ => dbC10

/-- The updated event document in `dbC10res`. -/
def eC10res : EventDoc := (dbC10res.events 1).getD baseEvent

/-- Store for the blog half of the C10 witness: just the base blog at id 2. -/
def dbC10b : DB :=
  { events := fun _ => none,
    blogs := fun i => if i = 2 then some baseBlog else none,
    media := fun _ => none }

/-- A malicious blog PATCH body: a legitimate title/status change plus
attempts to forge `views`, `isDeleted`, `deletedAt`, `createdBy`,
`publishedAt` and `slug`. -/
def bodyC10b : BlogUpdateBody :=
  { title := some "Hello Again", status := some .published,
    views := some 999, isDeleted := some true, deletedAt := some 1,
    createdBy := some 666, publishedAt := some 123, slug := some "forged" }

/-- The store produced by running the C10 blog update pipeline. -/
def dbC10bres : DB :=
  match handleBlogUpdate dbC10b 2 bodyC10b 9 700 with
  | .ok d => d
  | .error _ => dbC10b

/-- The updated blog document in `dbC10bres`. -/
def bC10res : BlogDoc := (dbC10bres.blogs 2).getD baseBlog

theorem count_pushUsage (d : MediaDoc) (t t' : UsageTuple) :
    (pushUsage t d).usedIn.count t' = d.usedIn.count t' + (if t' = t then 1 else 0) := by
  unfold pushUsage
  rw [List.count_append, List.count_singleton]
  by_cases h : t' = t
  · simp [h]
  · simp [h, Ne.symm h]

theorem count_pullUsageField_self (d : MediaDoc) (t : UsageTuple) :
    (pullUsageField t d).usedIn.count t = 0 := by
  unfold pullUsageField
  rw [List.count_eq_zero]
  intro h
  have := (List.mem_filter.mp h).2
  simp at this

theorem count_pullUsageField_ne (d : MediaDoc) {t t' : UsageTuple} (h : t' ≠ t) :
    (pullUsageField t d).usedIn.count t' = d.usedIn.count t' := by
  unfold pullUsageField
  rw [List.count_filter]
  simp [h]

theorem count_pullUsageEntity (d : MediaDoc) (k : EntityKind) (eid : EntityId)
    (t : UsageTuple) :
    (pullUsageEntity k eid d).usedIn.count t =
      if t.model = k ∧ t.modelId = eid then 0 else d.usedIn.count t := by
  unfold pullUsageEntity
  by_cases h : t.model = k ∧ t.modelId = eid
  · rw [if_pos h, List.count_eq_zero]
    intro hmem
    have := (List.mem_filter.mp hmem).2
    simp [h.1, h.2] at this
  · rw [if_neg h, List.count_filter]
    simp [h]

theorem pushUsage_isDeleted (t : UsageTuple) (d : MediaDoc) :
    (pushUsage t d).isDeleted = d.isDeleted := rfl

theorem pullUsageField_isDeleted (t : UsageTuple) (d : MediaDoc) :
    (pullUsageField t d).isDeleted = d.isDeleted := rfl

theorem pullUsageEntity_isDeleted (k : EntityKind) (eid : EntityId) (d : MediaDoc) :
    (pullUsageEntity k eid d).isDeleted = d.isDeleted := rfl

theorem mediaFindByIdAndUpdate_apply_ne (db : MediaDB) (id : MediaId)
    (f : MediaDoc → MediaDoc) {m : MediaId} (h : m ≠ id) :
    mediaFindByIdAndUpdate db id f m = db m := by
  simp [mediaFindByIdAndUpdate, h]

theorem mediaFindByIdAndUpdate_apply_live (db : MediaDB) (id : MediaId)
    (f : MediaDoc → MediaDoc) {d : MediaDoc} (hd : db id = some d)
    (hl : d.isDeleted = false) :
    mediaFindByIdAndUpdate db id f id = some (f d) := by
  simp [mediaFindByIdAndUpdate, hd, hl]

theorem mediaUpdateMany_apply_mem (db : MediaDB) (ids : List MediaId)
    (f : MediaDoc → MediaDoc) {m : MediaId} (h : m ∈ ids) :
    mediaUpdateMany db ids f m = (db m).map f := by
  simp [mediaUpdateMany, h]

theorem mediaUpdateMany_apply_not_mem (db : MediaDB) (ids : List MediaId)
    (f : MediaDoc → MediaDoc) {m : MediaId} (h : m ∉ ids) :
    mediaUpdateMany db ids f m = db m := by
  simp [mediaUpdateMany, h]

/-- A `findByIdAndUpdate` that pushes tuple `t` never changes the count of a
different tuple, at any asset. -/
theorem usageCount_findUpdate_push_ne (db : MediaDB) (aid : MediaId)
    {t t' : UsageTuple} (h : t' ≠ t) (m : MediaId) :
    usageCount (mediaFindByIdAndUpdate db aid (pushUsage t)) m t' =
      usageCount db m t' := by
  by_cases hm : m = aid
  · subst hm
    unfold usageCount mediaFindByIdAndUpdate
    simp only [if_pos rfl]
    match hdb : db m with
    | none => rfl
    | some d =>
      by_cases hdel : d.isDeleted <;>
        simp [hdel, count_pushUsage, h]
  · unfold usageCount
    rw [mediaFindByIdAndUpdate_apply_ne db aid _ hm]

/-- A `findByIdAndUpdate` that pulls tuple `t` never changes the count of a
different tuple, at any asset. -/
theorem usageCount_findUpdate_pull_ne (db : MediaDB) (aid : MediaId)
    {t t' : UsageTuple} (h : t' ≠ t) (m : MediaId) :
    usageCount (mediaFindByIdAndUpdate db aid (pullUsageField t)) m t' =
      usageCount db m t' := by
  by_cases hm : m = aid
  · subst hm
    unfold usageCount mediaFindByIdAndUpdate
    simp only [if_pos rfl]
    match hdb : db m with
    | none => rfl
    | some d =>
      by_cases hdel : d.isDeleted <;>
        simp [hdel, count_pullUsageField_ne d h]
  · unfold usageCount
    rw [mediaFindByIdAndUpdate_apply_ne db aid _ hm]

/-- The guarded gallery `updateMany` pushing tuple `t` never changes the
count of a different tuple. -/
theorem usageCount_guardUpdateMany_push_ne (db : MediaDB) (ids : List MediaId)
    {t t' : UsageTuple} (h : t' ≠ t) (m : MediaId) :
    usageCount (if ids ≠ [] then mediaUpdateMany db ids (pushUsage t) else db) m t' =
      usageCount db m t' := by
  split
  · by_cases hm : m ∈ ids
    · unfold usageCount
      rw [mediaUpdateMany_apply_mem db ids _ hm]
      match hdb : db m with
      | none => rfl
      | some d => simp [count_pushUsage, h]
    · unfold usageCount
      rw [mediaUpdateMany_apply_not_mem db ids _ hm]
  · rfl

/-- The guarded gallery `updateMany` pulling tuple `t` never changes the
count of a different tuple. -/
theorem usageCount_guardUpdateMany_pull_ne (db : MediaDB) (ids : List MediaId)
    {t t' : UsageTuple} (h : t' ≠ t) (m : MediaId) :
    usageCount (if ids ≠ [] then mediaUpdateMany db ids (pullUsageField t) else db) m t' =
      usageCount db m t' := by
  split
  · by_cases hm : m ∈ ids
    · unfold usageCount
      rw [mediaUpdateMany_apply_mem db ids _ hm]
      match hdb : db m with
      | none => rfl
      | some d => simp [count_pullUsageField_ne d h]
    · unfold usageCount
      rw [mediaUpdateMany_apply_not_mem db ids _ hm]
  · rfl

/-- The guarded `updateMany` leaves an asset outside its id list untouched. -/
theorem guardUpdateMany_apply_not_mem (db : MediaDB) (ids : List MediaId)
    (f : MediaDoc → MediaDoc) {m : MediaId} (h : m ∉ ids) :
    (if ids ≠ [] then mediaUpdateMany db ids f else db) m = db m := by
  split
  · exact mediaUpdateMany_apply_not_mem db ids f h
  · rfl

theorem usageCount_findUpdate_other (db : MediaDB) (aid : MediaId)
    (f : MediaDoc → MediaDoc) {m : MediaId} (hm : m ≠ aid) (t : UsageTuple) :
    usageCount (mediaFindByIdAndUpdate db aid f) m t = usageCount db m t := by
  unfold usageCount
  rw [mediaFindByIdAndUpdate_apply_ne db aid f hm]

/-- A hero change from live asset `a` to a different asset `b` leaves no copy
of the hero tuple on `a`. -/
theorem heroFixup_pulled (k : EntityKind) (media : MediaDB) (id : EntityId)
    {a b : MediaId} (hab : a ≠ b) {da : MediaDoc} (hda : media a = some da)
    (hlive : da.isDeleted = false) :
    usageCount (heroFixup k media id (some a) (some b)) a ⟨k, id, .heroImage⟩ = 0 := by
  unfold heroFixup
  have hba : (some b : Option MediaId) ≠ some a := by simpa using Ne.symm hab
  have hab' : (some a : Option MediaId) ≠ some b := by simpa using hab
  dsimp only
  rw [if_pos hba, if_pos hab']
  rw [usageCount_findUpdate_other _ b _ hab]
  unfold usageCount
  rw [mediaFindByIdAndUpdate_apply_live media a _ hda hlive]
  exact count_pullUsageField_self da _

/-- A hero change from `a` to a different live asset `b` appends exactly one
copy of the hero tuple to `b`. -/
theorem heroFixup_pushed (k : EntityKind) (media : MediaDB) (id : EntityId)
    {a b : MediaId} (hab : a ≠ b) {dbb : MediaDoc} (hdb : media b = some dbb)
    (hblive : dbb.isDeleted = false) :
    usageCount (heroFixup k media id (some a) (some b)) b ⟨k, id, .heroImage⟩ =
      usageCount media b ⟨k, id, .heroImage⟩ + 1 := by
  unfold heroFixup
  have hba : (some b : Option MediaId) ≠ some a := by simpa using Ne.symm hab
  have hab' : (some a : Option MediaId) ≠ some b := by simpa using hab
  dsimp only
  rw [if_pos hba, if_pos hab']
  have hpull : mediaFindByIdAndUpdate media a
      (pullUsageField ⟨k, id, .heroImage⟩) b = some dbb := by
    rw [mediaFindByIdAndUpdate_apply_ne media a _ (Ne.symm hab)]
    exact hdb
  unfold usageCount
  rw [mediaFindByIdAndUpdate_apply_live _ b _ hpull hblive, hdb]
  dsimp only
  rw [count_pushUsage]
  simp

/-- The hero fixup never changes the count of any tuple other than its own
hero tuple. -/
theorem heroFixup_count_ne (k : EntityKind) (media : MediaDB) (id : EntityId)
    (oldH newH : Option MediaId) {t' : UsageTuple}
    (h : t' ≠ ⟨k, id, .heroImage⟩) (m : MediaId) :
    usageCount (heroFixup k media id oldH newH) m t' = usageCount media m t' := by
  unfold heroFixup
  have hm1 : usageCount (match oldH with
      | some a =>
          if newH ≠ some a then
            mediaFindByIdAndUpdate media a (pullUsageField ⟨k, id, .heroImage⟩)
          else media
      | none => media) m t' = usageCount media m t' := by
    cases oldH with
    | none => rfl
    | some a =>
        dsimp only
        split
        · exact usageCount_findUpdate_pull_ne media a h m
        · rfl
  cases newH with
  | none => exact hm1
  | some b =>
      dsimp only
      split
      · rw [usageCount_findUpdate_push_ne _ b h m]
        exact hm1
      · exact hm1

/-- A gallery id present in both the old and the new gallery is completely
untouched by the gallery fixup. -/
theorem galleryFixup_apply_mem_both (k : EntityKind) (media : MediaDB)
    (id : EntityId) (oldG newG : List MediaId) {g : MediaId}
    (h1 : g ∈ oldG) (h2 : g ∈ newG) :
    galleryFixup k media id oldG newG g = media g := by
  unfold galleryFixup
  have hrm : g ∉ oldG.filter (fun x => !(newG.contains x)) := by
    intro hmem
    have hp := (List.mem_filter.mp hmem).2
    simp only [List.contains, Bool.not_eq_true', List.elem_eq_mem,
      decide_eq_false_iff_not] at hp
    exact hp h2
  have had : g ∉ newG.filter (fun x => !(oldG.contains x)) := by
    intro hmem
    have hp := (List.mem_filter.mp hmem).2
    simp only [List.contains, Bool.not_eq_true', List.elem_eq_mem,
      decide_eq_false_iff_not] at hp
    exact hp h1
  rw [guardUpdateMany_apply_not_mem _ _ _ had,
    guardUpdateMany_apply_not_mem _ _ _ hrm]

/-- The gallery fixup never changes the count of any tuple other than its own
gallery tuple. -/
theorem galleryFixup_count_ne (k : EntityKind) (media : MediaDB)
    (id : EntityId) (oldG newG : List MediaId) {t' : UsageTuple}
    (h : t' ≠ ⟨k, id, .gallery⟩) (m : MediaId) :
    usageCount (galleryFixup k media id oldG newG) m t' =
      usageCount media m t' := by
  unfold galleryFixup
  dsimp only
  rw [usageCount_guardUpdateMany_push_ne _ _ h m,
    usageCount_guardUpdateMany_pull_ne _ _ h m]

theorem mediaFindByIdAndUpdate_apply_deleted (db : MediaDB) (id : MediaId)
    (f : MediaDoc → MediaDoc) {d : MediaDoc} (hd : db id = some d)
    (hdel : d.isDeleted = true) :
    mediaFindByIdAndUpdate db id f id = some d := by
  simp [mediaFindByIdAndUpdate, hd, hdel]

/-- Count after the soft-delete controllers' entity-wide `$pull` via
`updateMany`: zero for the pulled entity's tuples on listed assets, untouched
otherwise. -/
theorem usageCount_updateMany_pullEntity (db : MediaDB) (ids : List MediaId)
    (k : EntityKind) (eid : EntityId) (m : MediaId) (t : UsageTuple) :
    usageCount (mediaUpdateMany db ids (pullUsageEntity k eid)) m t =
      if m ∈ ids ∧ t.model = k ∧ t.modelId = eid then 0
      else usageCount db m t := by
  by_cases hm : m ∈ ids
  · unfold usageCount
    rw [mediaUpdateMany_apply_mem db ids _ hm]
    cases hdb : db m with
    | none =>
        by_cases hmt : t.model = k ∧ t.modelId = eid <;> simp [hm, hmt]
    | some d =>
        dsimp only [Option.map]
        rw [count_pullUsageEntity]
        by_cases hmt : t.model = k ∧ t.modelId = eid <;> simp [hm, hmt]
  · unfold usageCount
    rw [mediaUpdateMany_apply_not_mem db ids _ hm]
    simp [hm]

/-- Guarded version of `usageCount_updateMany_pullEntity` (the controllers
skip the `updateMany` when the id list is empty). -/
theorem usageCount_guardUpdateMany_pullEntity (db : MediaDB) (ids : List MediaId)
    (k : EntityKind) (eid : EntityId) (m : MediaId) (t : UsageTuple) :
    usageCount (if ids ≠ [] then mediaUpdateMany db ids (pullUsageEntity k eid)
        else db) m t =
      if m ∈ ids ∧ t.model = k ∧ t.modelId = eid then 0
      else usageCount db m t := by
  by_cases hids : ids ≠ []
  · rw [if_pos hids]
    exact usageCount_updateMany_pullEntity db ids k eid m t
  · rw [if_neg hids]
    have : ids = [] := not_not.mp hids
    subst this
    simp

/-- Count after a `$push` through the deleted-filtering `findByIdAndUpdate`
aimed at a live existing asset. -/
theorem usageCount_findUpdate_push_live (db : MediaDB) (h : MediaId)
    (t : UsageTuple) (m : MediaId) (t' : UsageTuple) {d : MediaDoc}
    (hd : db h = some d) (hl : d.isDeleted = false) :
    usageCount (mediaFindByIdAndUpdate db h (pushUsage t)) m t' =
      usageCount db m t' + (if m = h ∧ t' = t then 1 else 0) := by
  by_cases hm : m = h
  · subst hm
    unfold usageCount
    rw [mediaFindByIdAndUpdate_apply_live db m _ hd hl, hd]
    dsimp only
    rw [count_pushUsage]
    by_cases ht : t' = t <;> simp [ht]
  · rw [usageCount_findUpdate_other db h _ hm]
    simp [hm]

/-- Count after the guarded gallery `$push` via `updateMany`, when every
listed asset exists (deleted or not — the hook does not fire). -/
theorem usageCount_guardUpdateMany_push (db : MediaDB) (ids : List MediaId)
    (t : UsageTuple) (m : MediaId) (t' : UsageTuple)
    (hex : ∀ g ∈ ids, ∃ d, db g = some d) :
    usageCount (if ids ≠ [] then mediaUpdateMany db ids (pushUsage t) else db) m t' =
      usageCount db m t' + (if m ∈ ids ∧ t' = t then 1 else 0) := by
  by_cases hids : ids ≠ []
  · rw [if_pos hids]
    by_cases hm : m ∈ ids
    · obtain ⟨d, hd⟩ := hex m hm
      unfold usageCount
      rw [mediaUpdateMany_apply_mem db ids _ hm, hd]
      dsimp only [Option.map]
      rw [count_pushUsage]
      by_cases ht : t' = t <;> simp [hm, ht]
    · unfold usageCount
      rw [mediaUpdateMany_apply_not_mem db ids _ hm]
      simp [hm]
  · rw [if_neg hids]
    have : ids = [] := not_not.mp hids
    subst this
    simp

/-- `updateMany` with an `isDeleted`-preserving modifier keeps every existing
document in place with its `isDeleted` flag. -/
theorem mediaUpdateMany_preserves (db : MediaDB) (ids : List MediaId)
    (f : MediaDoc → MediaDoc) (hf : ∀ d, (f d).isDeleted = d.isDeleted)
    (m : MediaId) {d : MediaDoc} (hd : db m = some d) :
    ∃ d', mediaUpdateMany db ids f m = some d' ∧ d'.isDeleted = d.isDeleted := by
  by_cases hm : m ∈ ids
  · rw [mediaUpdateMany_apply_mem db ids f hm, hd]
    exact ⟨f d, rfl, hf d⟩
  · rw [mediaUpdateMany_apply_not_mem db ids f hm]
    exact ⟨d, hd, rfl⟩

/-- Guarded version of `mediaUpdateMany_preserves`. -/
theorem guardUpdateMany_preserves (db : MediaDB) (ids : List MediaId)
    (f : MediaDoc → MediaDoc) (hf : ∀ d, (f d).isDeleted = d.isDeleted)
    (m : MediaId) {d : MediaDoc} (hd : db m = some d) :
    ∃ d', (if ids ≠ [] then mediaUpdateMany db ids f else db) m = some d'
      ∧ d'.isDeleted = d.isDeleted := by
  by_cases hids : ids ≠ []
  · rw [if_pos hids]
    exact mediaUpdateMany_preserves db ids f hf m hd
  · rw [if_neg hids]
    exact ⟨d, hd, rfl⟩

/-- A `findByIdAndUpdate` with an `isDeleted`-preserving modifier keeps every
existing document in place with its `isDeleted` flag. -/
theorem mediaFindByIdAndUpdate_preserves (db : MediaDB) (aid : MediaId)
    (f : MediaDoc → MediaDoc) (hf : ∀ d, (f d).isDeleted = d.isDeleted)
    (m : MediaId) {d : MediaDoc} (hd : db m = some d) :
    ∃ d', mediaFindByIdAndUpdate db aid f m = some d'
      ∧ d'.isDeleted = d.isDeleted := by
  by_cases hm : m = aid
  · subst hm
    by_cases hdel : d.isDeleted = true
    · rw [mediaFindByIdAndUpdate_apply_deleted db m f hd hdel]
      exact ⟨d, rfl, rfl⟩
    · have hl : d.isDeleted = false := by simpa using hdel
      rw [mediaFindByIdAndUpdate_apply_live db m f hd hl]
      exact ⟨f d, rfl, hf d⟩
  · rw [mediaFindByIdAndUpdate_apply_ne db aid f hm]
    exact ⟨d, hd, rfl⟩

/-- The video fixup never changes the count of any tuple other than its own
video tuple. -/
theorem videoFixup_count_ne (media : MediaDB) (id : EntityId)
    (oldV newV : Option MediaId) {t' : UsageTuple}
    (h : t' ≠ ⟨.blog, id, .video⟩) (m : MediaId) :
    usageCount (videoFixup media id oldV newV) m t' = usageCount media m t' := by
  unfold videoFixup
  have hm5 : usageCount (match oldV with
      | some v =>
          if newV ≠ some v then
            mediaFindByIdAndUpdate media v (pullUsageField ⟨.blog, id, .video⟩)
          else media
      | none => media) m t' = usageCount media m t' := by
    cases oldV with
    | none => rfl
    | some v =>
        dsimp only
        split
        · exact usageCount_findUpdate_pull_ne media v h m
        · rfl
  cases newV with
  | none => exact hm5
  | some w =>
      dsimp only
      split
      · rw [usageCount_findUpdate_push_ne _ w h m]
        exact hm5
      · exact hm5

/-! ### Characterisation of the pre-save hooks -/

/-- The event save hook touches only `slug` and `publishedAt`. -/
theorem eventSaveHook_frame (old : Option EventDoc) (d : EventDoc) (now : Millis) :
    (eventSaveHook old d now).title = d.title
      ∧ (eventSaveHook old d now).status = d.status
      ∧ (eventSaveHook old d now).heroImage = d.heroImage
      ∧ (eventSaveHook old d now).gallery = d.gallery
      ∧ (eventSaveHook old d now).views = d.views
      ∧ (eventSaveHook old d now).isDeleted = d.isDeleted
      ∧ (eventSaveHook old d now).deletedAt = d.deletedAt
      ∧ (eventSaveHook old d now).createdBy = d.createdBy
      ∧ (eventSaveHook old d now).updatedBy = d.updatedBy := by
  unfold eventSaveHook
  cases old with
  | none =>
      by_cases h3 : d.status = ContentStatus.published <;>
        by_cases h4 : d.publishedAt = none <;>
        simp_all [Option.isNone_iff_eq_none]
  | some o =>
      by_cases h1 : d.title = o.title <;> by_cases h2 : d.status = o.status <;>
        by_cases h3 : d.status = ContentStatus.published <;>
        by_cases h4 : d.publishedAt = none <;>
        simp_all [Option.isNone_iff_eq_none, bne_iff_ne]

/-- The slug written by a save of an existing event: regenerated exactly when
the title is modified. -/
theorem eventSaveHook_slug (o d : EventDoc) (now : Millis) :
    (eventSaveHook (some o) d now).slug =
      if d.title != o.title then genSlug d.title now else d.slug := by
  unfold eventSaveHook
  by_cases h1 : d.title = o.title <;> by_cases h2 : d.status = o.status <;>
    by_cases h3 : d.status = ContentStatus.published <;>
    by_cases h4 : d.publishedAt = none <;>
    simp_all [Option.isNone_iff_eq_none, bne_iff_ne]

/-- The `publishedAt` written by a save of an existing event: stamped with
`now` exactly when the status is modified to `published` while `publishedAt`
is unset, otherwise untouched. -/
theorem eventSaveHook_publishedAt (o d : EventDoc) (now : Millis) :
    (eventSaveHook (some o) d now).publishedAt =
      if (d.status != o.status) && (d.status == .published) && d.publishedAt.isNone
      then some now else d.publishedAt := by
  unfold eventSaveHook
  by_cases h1 : d.title = o.title <;> by_cases h2 : d.status = o.status <;>
    by_cases h3 : d.status = ContentStatus.published <;>
    by_cases h4 : d.publishedAt = none <;>
    simp_all [Option.isNone_iff_eq_none, bne_iff_ne]

/-- The blog save hook touches only `slug` and `publishedAt`. -/
theorem blogSaveHook_frame (old : Option BlogDoc) (d : BlogDoc) (now : Millis) :
    (blogSaveHook old d now).title = d.title
      ∧ (blogSaveHook old d now).status = d.status
      ∧ (blogSaveHook old d now).heroImage = d.heroImage
      ∧ (blogSaveHook old d now).gallery = d.gallery
      ∧ (blogSaveHook old d now).video = d.video
      ∧ (blogSaveHook old d now).views = d.views
      ∧ (blogSaveHook old d now).isDeleted = d.isDeleted
      ∧ (blogSaveHook old d now).deletedAt = d.deletedAt
      ∧ (blogSaveHook old d now).createdBy = d.createdBy := by
  unfold blogSaveHook
  cases old with
  | none =>
      by_cases h3 : d.status = ContentStatus.published <;>
        by_cases h4 : d.publishedAt = none <;>
        simp_all [Option.isNone_iff_eq_none]
  | some o =>
      by_cases h1 : d.title = o.title <;> by_cases h2 : d.status = o.status <;>
        by_cases h3 : d.status = ContentStatus.published <;>
        by_cases h4 : d.publishedAt = none <;>
        simp_all [Option.isNone_iff_eq_none, bne_iff_ne]

/-- The `publishedAt` written by a save of an existing blog. -/
theorem blogSaveHook_publishedAt (o d : BlogDoc) (now : Millis) :
    (blogSaveHook (some o) d now).publishedAt =
      if (d.status != o.status) && (d.status == .published) && d.publishedAt.isNone
      then some now else d.publishedAt := by
  unfold blogSaveHook
  by_cases h1 : d.title = o.title <;> by_cases h2 : d.status = o.status <;>
    by_cases h3 : d.status = ContentStatus.published <;>
    by_cases h4 : d.publishedAt = none <;>
    simp_all [Option.isNone_iff_eq_none, bne_iff_ne]

/-! ### C5 — media deletion guard -/

/-- C5: for an asset record that exists and is not soft-deleted,
`deleteMediaAsset(id)` fails with the `InUse` error (HTTP 400, record kept)
whenever `usedIn` is non-empty, and succeeds — permanently removing exactly
that record — whenever `usedIn` is empty. -/
theorem c5_delete_guard (db : MediaDB) (id : MediaId) (d : MediaDoc)
    (hd : db id = some d) (hlive : d.isDeleted = false) :
    (d.usedIn ≠ [] →
        deleteMedia db id =
          .error ⟨400, "Cannot delete media that is currently in use"⟩)
      ∧ (d.usedIn = [] →
        ∃ db', deleteMedia db id = .ok db'
          ∧ db' id = none ∧ ∀ x, x ≠ id → db' x = db x) := by
  unfold deleteMedia mediaFindById
  rw [hd]
  constructor
  · intro hne
    simp [hlive, MediaDoc.isInUse, List.length_pos, hne]
  · intro hemp
    simp only [hlive, Bool.false_eq_true, if_false, MediaDoc.isInUse, hemp,
      List.length_nil, lt_self_iff_false, decide_False, Bool.false_eq_true,
      if_false]
    refine ⟨_, rfl, ?_, ?_⟩
    · simp
    · intro x hx
      simp [hx]

/-! ### C4 — idempotence of usage add/remove -/

/-- C4 counterexample: the `$push`-based usage-add actually performed by the
content controllers (`createEvent`, `updateEvent`, `restoreEvent`, and their
blog counterparts run `Media.findByIdAndUpdate(id, {$push: {usedIn: tuple}})`)
is not idempotent: applying it twice to asset 1 leaves a duplicated tuple,
refuting the claim that idempotence holds on every such code path. -/
theorem c4_push_not_idempotent :
    mediaFindByIdAndUpdate
        (mediaFindByIdAndUpdate dbC4 1 (pushUsage ⟨.event, 7, .heroImage⟩))
        1 (pushUsage ⟨.event, 7, .heroImage⟩) 1
      ≠ mediaFindByIdAndUpdate dbC4 1 (pushUsage ⟨.event, 7, .heroImage⟩) 1 := by
  decide

/-- C4 amended: the Media model's `addUsage` method is idempotent and its
`removeUsage` method is a no-op on an absent tuple (never an error); the
guarantee is limited to these model methods — the controllers' raw `$push`
update path duplicates (see the counterexample). -/
theorem c4_usage_ops_idempotent (d : MediaDoc) (t : UsageTuple) :
    (d.addUsage t).addUsage t = d.addUsage t
      ∧ (t ∉ d.usedIn → d.removeUsage t = d) := by
  constructor
  · by_cases h : ∃ x ∈ d.usedIn,
        x.model = t.model ∧ x.modelId = t.modelId ∧ x.field = t.field
    · simp [MediaDoc.addUsage, h]
    · simp [MediaDoc.addUsage, h]
  · intro hmem
    unfold MediaDoc.removeUsage
    have hall : ∀ a ∈ d.usedIn, (decide
        ¬(a.model = t.model ∧ a.modelId = t.modelId ∧ a.field = t.field)) = true := by
      intro a ha
      simp only [decide_eq_true_eq]
      rintro ⟨h1, h2, h3⟩
      have hat : a = t := by cases a; cases t; simp_all
      exact hmem (hat ▸ ha)
    rw [List.filter_eq_self.mpr hall]

/-- Witness for C4 at concrete documents: double `addUsage` of a fresh tuple
equals a single one, and `removeUsage` of an absent tuple changes nothing. -/
theorem c4_usage_ops_idempotent_witness :
    ((MediaDoc.mk [] false).addUsage ⟨.event, 7, .heroImage⟩).addUsage
        ⟨.event, 7, .heroImage⟩
      = (MediaDoc.mk [] false).addUsage ⟨.event, 7, .heroImage⟩
    ∧ (MediaDoc.mk [⟨.blog, 3, .gallery⟩] false).removeUsage ⟨.event, 7, .heroImage⟩
      = MediaDoc.mk [⟨.blog, 3, .gallery⟩] false :=
  ⟨(c4_usage_ops_idempotent ⟨[], false⟩ ⟨.event, 7, .heroImage⟩).1,
   (c4_usage_ops_idempotent ⟨[⟨.blog, 3, .gallery⟩], false⟩
      ⟨.event, 7, .heroImage⟩).2 (by decide)⟩

/-! ### C6 — lifecycle transition errors -/

/-- C6 counterexample: soft-deleting the already-deleted event 1 fails with
the 404 `NotFound` error (`deleteEvent` reads through the default
deleted-hiding query), not with the 400 invalid-state error the claim
requires, and the two error kinds differ. -/
theorem c6_delete_deleted_is_not_found :
    deleteEvent dbC6 1 10 = .error ⟨404, "Event not found"⟩
      ∧ (ApiErr.mk 404 "Event not found" ≠ ApiErr.mk 400 "Event is not deleted") :=
  ⟨rfl, by decide⟩

/-- C6 amended: restoring a non-deleted event fails with the 400
invalid-state error (`"Event is not deleted"`), while soft-deleting an
already-deleted event fails with the 404 `NotFound` error — because the
default find hides deleted events — and in both cases the error is thrown
before any write, so the store is returned unchanged. -/
theorem c6_lifecycle_errors (db : DB) (id : EntityId) (e : EventDoc) (now : Millis)
    (hid : db.events id = some e) :
    (e.isDeleted = false →
        restoreEvent db id now = .error ⟨400, "Event is not deleted"⟩)
      ∧ (e.isDeleted = true →
        deleteEvent db id now = .error ⟨404, "Event not found"⟩) := by
  constructor
  · intro h
    unfold restoreEvent
    rw [hid]
    simp [h]
  · intro h
    unfold deleteEvent eventFindById
    rw [hid]
    simp [h]

/-- Witness for C6 at `dbC6`: restoring the live event 2 errors with 400,
deleting the deleted event 1 errors with 404. -/
theorem c6_lifecycle_errors_witness :
    (restoreEvent dbC6 2 10 = .error ⟨400, "Event is not deleted"⟩)
      ∧ (deleteEvent dbC6 1 10 = .error ⟨404, "Event not found"⟩) :=
  ⟨(c6_lifecycle_errors dbC6 2 baseEvent 10 rfl).1 rfl,
   (c6_lifecycle_errors dbC6 1
      { baseEvent with isDeleted := true, deletedAt := some 5 } 10 rfl).2 rfl⟩

/-! ### Inversion / frame lemmas for the controllers -/

theorem eventFindById_of {db : EventDB} {id : EntityId} {e : EventDoc}
    (hE : db id = some e) (hL : e.isDeleted = false) :
    eventFindById db id = some e := by
  unfold eventFindById
  rw [hE]
  simp [hL]

theorem blogFindById_of {db : BlogDB} {id : EntityId} {b : BlogDoc}
    (hB : db id = some b) (hL : b.isDeleted = false) :
    blogFindById db id = some b := by
  unfold blogFindById
  rw [hB]
  simp [hL]

theorem usageCount_congr_apply {db1 db2 : MediaDB} {m : MediaId}
    (h : db1 m = db2 m) (t : UsageTuple) :
    usageCount db1 m t = usageCount db2 m t := by
  unfold usageCount
  rw [h]

theorem eventFindById_some {db : EventDB} {id : EntityId} {e : EventDoc}
    (h : eventFindById db id = some e) : db id = some e ∧ e.isDeleted = false := by
  unfold eventFindById at h
  revert h
  cases hdb : db id with
  | none => intro h; cases h
  | some e0 =>
      intro h
      by_cases hdel : e0.isDeleted = true
      · simp only [hdel, if_true] at h
        exact Option.noConfusion h
      · simp only [hdel, if_false, Bool.false_eq_true, Option.some.injEq] at h
        subst h
        exact ⟨rfl, by simpa using hdel⟩

theorem blogFindById_some {db : BlogDB} {id : EntityId} {b : BlogDoc}
    (h : blogFindById db id = some b) : db id = some b ∧ b.isDeleted = false := by
  unfold blogFindById at h
  revert h
  cases hdb : db id with
  | none => intro h; cases h
  | some b0 =>
      intro h
      by_cases hdel : b0.isDeleted = true
      · simp only [hdel, if_true] at h
        exact Option.noConfusion h
      · simp only [hdel, if_false, Bool.false_eq_true, Option.some.injEq] at h
        subst h
        exact ⟨rfl, by simpa using hdel⟩

/-- What an `update` admin operation does to the event collection. -/
theorem stepOp_update_events (db : DB) (uid : EntityId) (p : EventPatch)
    (actor : UserId) (now : Millis) :
    (stepOp db (.update uid p actor now)).events =
      match eventFindById db.events uid with
      | none => db.events
      | some e0 => fun i =>
          if i = uid then
            some (eventSaveHook (some e0) (applyEventPatch e0 p actor) now)
          else db.events i := by
  simp only [stepOp, updateEvent]
  cases hfind : eventFindById db.events uid <;> simp [hfind]

/-- What a `softDelete` admin operation does to the event collection. -/
theorem stepOp_softDelete_events (db : DB) (did : EntityId) (now : Millis) :
    (stepOp db (.softDelete did now)).events =
      match eventFindById db.events did with
      | none => db.events
      | some e0 => fun i =>
          if i = did then
            some (eventSaveHook (some e0)
              { e0 with isDeleted := true, deletedAt := some now } now)
          else db.events i := by
  simp only [stepOp, deleteEvent]
  cases hfind : eventFindById db.events did <;> simp [hfind]

/-- What a `restore` admin operation does to the event collection. -/
theorem stepOp_restore_events (db : DB) (rid : EntityId) (now : Millis) :
    (stepOp db (.restore rid now)).events =
      match db.events rid with
      | none => db.events
      | some e0 =>
          if e0.isDeleted then
            fun i =>
              if i = rid then
                some (eventSaveHook (some e0)
                  { e0 with isDeleted := false, deletedAt := none } now)
              else db.events i
          else db.events := by
  simp only [stepOp, restoreEvent]
  cases hfind : db.events rid with
  | none => simp [hfind]
  | some e0 =>
      cases hb : e0.isDeleted <;> simp [hfind, hb]

theorem applyEventPatch_publishedAt (e : EventDoc) (p : EventPatch) (actor : UserId) :
    (applyEventPatch e p actor).publishedAt = e.publishedAt := rfl

/-- Once `publishedAt` is set, no further save through the hook changes it. -/
theorem eventSaveHook_publishedAt_stable {o d : EventDoc} {t : Millis} (now : Millis)
    (h : d.publishedAt = some t) :
    (eventSaveHook (some o) d now).publishedAt = some t := by
  rw [eventSaveHook_publishedAt, h]
  simp

/-- A single admin operation never changes an already-set `publishedAt`. -/
theorem stepOp_publishedAt_some (db : DB) (op : AdminOp) (id : EntityId)
    (e : EventDoc) (t : Millis)
    (h1 : db.events id = some e) (h2 : e.publishedAt = some t) :
    ∃ e', (stepOp db op).events id = some e' ∧ e'.publishedAt = some t := by
  cases op with
  | update uid p actor now =>
      rw [stepOp_update_events]
      cases hfind : eventFindById db.events uid with
      | none => exact ⟨e, h1, h2⟩
      | some e0 =>
          by_cases hid : id = uid
          · subst hid
            have he0 : e0 = e := by
              have h' := (eventFindById_some hfind).1
              rw [h1] at h'
              injection h' with h''
              exact h''.symm
            subst he0
            refine ⟨eventSaveHook (some e0) (applyEventPatch e0 p actor) now,
              by simp, ?_⟩
            exact eventSaveHook_publishedAt_stable now
              (by rw [applyEventPatch_publishedAt]; exact h2)
          · refine ⟨e, ?_, h2⟩
            simp only [if_neg hid]
            exact h1
  | softDelete did now =>
      rw [stepOp_softDelete_events]
      cases hfind : eventFindById db.events did with
      | none => exact ⟨e, h1, h2⟩
      | some e0 =>
          by_cases hid : id = did
          · subst hid
            have he0 : e0 = e := by
              have h' := (eventFindById_some hfind).1
              rw [h1] at h'
              injection h' with h''
              exact h''.symm
            subst he0
            refine ⟨eventSaveHook (some e0)
              { e0 with isDeleted := true, deletedAt := some now } now,
              by simp, ?_⟩
            exact eventSaveHook_publishedAt_stable now h2
          · refine ⟨e, ?_, h2⟩
            simp only [if_neg hid]
            exact h1
  | restore rid now =>
      rw [stepOp_restore_events]
      cases hfind : db.events rid with
      | none => exact ⟨e, h1, h2⟩
      | some e0 =>
          cases hdel : e0.isDeleted with
          | false =>
              simp only [hdel, Bool.false_eq_true, if_false]
              exact ⟨e, h1, h2⟩
          | true =>
              simp only [if_pos hdel]
              by_cases hid : id = rid
              · subst hid
                have he0 : e0 = e := by
                  rw [h1] at hfind
                  injection hfind with h''
                  exact h''.symm
                subst he0
                refine ⟨eventSaveHook (some e0)
                  { e0 with isDeleted := false, deletedAt := none } now,
                  by simp, ?_⟩
                exact eventSaveHook_publishedAt_stable now h2
              · refine ⟨e, ?_, h2⟩
                simp only [if_neg hid]
                exact h1

/-- No sequence of admin operations changes an already-set `publishedAt`. -/
theorem runOps_publishedAt_some (ops : List AdminOp) (db : DB) (id : EntityId)
    (e : EventDoc) (t : Millis)
    (h1 : db.events id = some e) (h2 : e.publishedAt = some t) :
    ∃ e', (runOps db ops).events id = some e' ∧ e'.publishedAt = some t := by
  induction ops generalizing db e with
  | nil => exact ⟨e, h1, h2⟩
  | cons op rest ih =>
      obtain ⟨e', h1', h2'⟩ := stepOp_publishedAt_some db op id e t h1 h2
      exact ih (stepOp db op) e' h1' h2'

/-- Witness for C5 at the concrete store `dbC5`: deleting the in-use asset 2
errors, deleting the unused asset 1 removes it. -/
theorem c5_delete_guard_witness :
    (deleteMedia dbC5 2 =
        .error ⟨400, "Cannot delete media that is currently in use"⟩)
      ∧ (∃ db', deleteMedia dbC5 1 = .ok db'
          ∧ db' 1 = none ∧ ∀ x, x ≠ 1 → db' x = dbC5 x) :=
  ⟨(c5_delete_guard dbC5 2 ⟨[⟨.event, 7, .heroImage⟩], false⟩ rfl rfl).1 (by decide),
   (c5_delete_guard dbC5 1 ⟨[], false⟩ rfl rfl).2 rfl⟩

/-! ### C8 — publishedAt is stamped once and never cleared -/

/-- C8: `publishedAt` is write-once.  (1) Once set, no sequence of admin
operations (update/soft-delete/restore, each running the pre-save hook, with
`publishedAt` never accepted from a request body) changes it.  (2)/(3) At the
hook level, a save of an existing event (resp. blog) changes `publishedAt`
only when it was unset and the status was modified to `published` — the first
publish — and then stamps the save time. -/
theorem c8_publishedAt_write_once :
    (∀ (db : DB) (ops : List AdminOp) (id : EntityId) (e : EventDoc) (t : Millis),
        db.events id = some e → e.publishedAt = some t →
        ∃ e', (runOps db ops).events id = some e' ∧ e'.publishedAt = some t)
      ∧ (∀ (o d : EventDoc) (now : Millis),
        d.publishedAt = none →
        (eventSaveHook (some o) d now).publishedAt ≠ d.publishedAt →
        d.status = .published ∧ d.status ≠ o.status ∧
          (eventSaveHook (some o) d now).publishedAt = some now)
      ∧ (∀ (o d : BlogDoc) (now : Millis),
        d.publishedAt = none →
        (blogSaveHook (some o) d now).publishedAt ≠ d.publishedAt →
        d.status = .published ∧ d.status ≠ o.status ∧
          (blogSaveHook (some o) d now).publishedAt = some now) := by
  refine ⟨?_, ?_, ?_⟩
  · intro db ops id e t h1 h2
    exact runOps_publishedAt_some ops db id e t h1 h2
  · intro o d now hnone hne
    rw [eventSaveHook_publishedAt] at hne ⊢
    by_cases hc : ((d.status != o.status) && (d.status == .published)
        && d.publishedAt.isNone) = true
    · rw [if_pos hc]
      simp only [Bool.and_eq_true, bne_iff_ne, beq_iff_eq] at hc
      exact ⟨hc.1.2, hc.1.1, rfl⟩
    · rw [if_neg hc] at hne
      exact absurd rfl hne
  · intro o d now hnone hne
    rw [blogSaveHook_publishedAt] at hne ⊢
    by_cases hc : ((d.status != o.status) && (d.status == .published)
        && d.publishedAt.isNone) = true
    · rw [if_pos hc]
      simp only [Bool.and_eq_true, bne_iff_ne, beq_iff_eq] at hc
      exact ⟨hc.1.2, hc.1.1, rfl⟩
    · rw [if_neg hc] at hne
      exact absurd rfl hne

/-- Witness for C8: the event published at time 50 keeps `publishedAt = 50`
through an unpublish/republish churn, and first publishes stamp the save
time on both models. -/
theorem c8_publishedAt_write_once_witness :
    (∃ e', (runOps dbC8 opsC8).events 1 = some e' ∧ e'.publishedAt = some 50)
      ∧ (dPubC8.status = .published ∧ dPubC8.status ≠ baseEvent.status ∧
          (eventSaveHook (some baseEvent) dPubC8 77).publishedAt = some 77)
      ∧ (dPubBlogC8.status = .published ∧ dPubBlogC8.status ≠ baseBlog.status ∧
          (blogSaveHook (some baseBlog) dPubBlogC8 77).publishedAt = some 77) :=
  ⟨c8_publishedAt_write_once.1 dbC8 opsC8 1
      { baseEvent with status := .published, publishedAt := some 50 } 50 rfl rfl,
   c8_publishedAt_write_once.2.1 baseEvent dPubC8 77 rfl (by decide),
   c8_publishedAt_write_once.2.2 baseBlog dPubBlogC8 77 rfl (by decide)⟩

/-! ### C9 — no optimistic concurrency on update -/

/-- C9 counterexample: two updates racing on event 1 — the second issued from
the same initial read as the first — both succeed; nothing is rejected with a
`Conflict`, and the second writer silently wins (`location = "Pune"`).  The
update pipeline does not even accept an expected version: `updateSchema`
declares no such field and `updateEvent` performs no version comparison. -/
theorem c9_lost_update_both_succeed :
    (updateEvent dbC9 1 patchC9A 9 100).toOption.isSome = true
      ∧ (updateEvent (stepOp dbC9 (.update 1 patchC9A 9 100)) 1
          patchC9B 9 200).toOption.isSome = true
      ∧ ((stepOp (stepOp dbC9 (.update 1 patchC9A 9 100))
          (.update 1 patchC9B 9 200)).events 1).map EventDoc.location
        = some "Pune" :=
  ⟨rfl, rfl, rfl⟩

/-- C9 amended: the update operations take no expected version and can never
answer `Conflict`: the only error `updateEvent` or `updateBlog` ever returns
is the 404 `NotFound`; every update of an existing live entity succeeds, so
racing updates resolve by last-write-wins. -/
theorem c9_update_never_conflicts :
    (∀ (db : DB) (id : EntityId) (p : EventPatch) (actor : UserId) (now : Millis)
        (err : ApiErr), updateEvent db id p actor now = .error err →
        err = ⟨404, "Event not found"⟩)
      ∧ (∀ (db : DB) (id : EntityId) (p : BlogPatch) (actor : UserId) (now : Millis)
        (err : ApiErr), updateBlog db id p actor now = .error err →
        err = ⟨404, "Blog not found"⟩) := by
  constructor
  · intro db id p actor now err h
    unfold updateEvent at h
    revert h
    cases eventFindById db.events id with
    | none =>
        intro h
        injection h with h'
        exact h'.symm
    | some e =>
        intro h
        cases h
  · intro db id p actor now err h
    unfold updateBlog at h
    revert h
    cases blogFindById db.blogs id with
    | none =>
        intro h
        injection h with h'
        exact h'.symm
    | some b =>
        intro h
        cases h

/-- Witness for C9: the only failure of an update against the concrete store,
aimed at a missing id, is the 404 `NotFound` error. -/
theorem c9_update_never_conflicts_witness :
    ((⟨404, "Event not found"⟩ : ApiErr) = ⟨404, "Event not found"⟩)
      ∧ ((⟨404, "Blog not found"⟩ : ApiErr) = ⟨404, "Blog not found"⟩) :=
  ⟨c9_update_never_conflicts.1 dbC9 99 patchC9A 9 100 ⟨404, "Event not found"⟩ rfl,
   c9_update_never_conflicts.2 dbC9 99 {} 9 100 ⟨404, "Blog not found"⟩ rfl⟩

/-! ### C3 — slug uniqueness: the decimal timestamp suffix -/

theorem undigits_digitsRev (n : Nat) : undigits (digitsRev n) = n := by
  induction n using Nat.strong_induction_on with
  | _ n ih =>
    cases n with
    | zero => simp [digitsRev, undigits]
    | succ m =>
        rw [digitsRev, undigits,
          ih ((m + 1) / 10) (Nat.div_lt_self (Nat.succ_pos m) (by decide))]
        omega

theorem undigits_normDigits (n : Nat) : undigits (normDigits n) = n := by
  unfold normDigits
  by_cases h : n = 0
  · simp [h, undigits]
  · rw [if_neg h]
    exact undigits_digitsRev n

theorem digitsRev_lt_ten (n : Nat) : ∀ d ∈ digitsRev n, d < 10 := by
  induction n using Nat.strong_induction_on with
  | _ n ih =>
    cases n with
    | zero => simp [digitsRev]
    | succ m =>
        intro d hd
        rw [digitsRev] at hd
        rcases List.mem_cons.mp hd with h | h
        · subst h
          exact Nat.mod_lt _ (by decide)
        · exact ih ((m + 1) / 10)
            (Nat.div_lt_self (Nat.succ_pos m) (by decide)) d h

theorem normDigits_lt_ten (n : Nat) : ∀ d ∈ normDigits n, d < 10 := by
  unfold normDigits
  by_cases h : n = 0
  · simp [h]
  · rw [if_neg h]
    exact digitsRev_lt_ten n

theorem digitChar_inj {d e : Nat} (hd : d < 10) (he : e < 10)
    (h : digitChar d = digitChar e) : d = e := by
  interval_cases d <;> interval_cases e <;> simp_all [digitChar]

theorem map_digitChar_inj : ∀ l1 l2 : List Nat, (∀ d ∈ l1, d < 10) →
    (∀ d ∈ l2, d < 10) → l1.map digitChar = l2.map digitChar → l1 = l2 := by
  intro l1
  induction l1 with
  | nil =>
      intro l2 _ _ h
      cases l2 with
      | nil => rfl
      | cons b tl2 => simp at h
  | cons a tl ih =>
      intro l2 h1 h2 h
      cases l2 with
      | nil => simp at h
      | cons b tl2 =>
          simp only [List.map_cons, List.cons.injEq] at h
          have hab := digitChar_inj (h1 a (by simp)) (h2 b (by simp)) h.1
          have htl := ih tl2 (fun d hd => h1 d (by simp [hd]))
            (fun d hd => h2 d (by simp [hd])) h.2
          rw [hab, htl]

theorem natDecimal_inj {m n : Nat} (h : natDecimal m = natDecimal n) : m = n := by
  unfold natDecimal at h
  injection h with h'
  have hrev : (normDigits m).reverse = (normDigits n).reverse :=
    map_digitChar_inj _ _
      (fun d hd => normDigits_lt_ten m d (List.mem_reverse.mp hd))
      (fun d hd => normDigits_lt_ten n d (List.mem_reverse.mp hd)) h'
  have hnorm : normDigits m = normDigits n := List.reverse_injective hrev
  rw [← undigits_normDigits m, ← undigits_normDigits n, hnorm]

/-- C3 counterexample: two events created with the same title in the same
wall-clock millisecond (1000) receive identical slugs — the generated slugs
are not pairwise distinct under same-millisecond (concurrent) creation. -/
theorem c3_same_millisecond_slug_collision :
    ∃ e1 e2, dbC3After.events 1 = some e1 ∧ dbC3After.events 2 = some e2
      ∧ e1.slug = e2.slug ∧ (1 : EntityId) ≠ 2 :=
  ⟨_, _, rfl, rfl, rfl, by decide⟩

/-- C3 amended: slugs generated by the pre-save hooks for the same title are
pairwise distinct provided the saves fall in pairwise distinct milliseconds;
in the same millisecond the generated slug is identical (see the
counterexample), so uniqueness is not guaranteed under concurrent creation. -/
theorem c3_slug_unique_across_millis (title : String) (t1 t2 : Millis)
    (h : t1 ≠ t2) : genSlug title t1 ≠ genSlug title t2 := by
  intro he
  apply h
  unfold genSlug at he
  have hd := congrArg String.data he
  rw [String.data_append, String.data_append, String.data_append,
    String.data_append] at hd
  exact natDecimal_inj (String.ext (List.append_cancel_left hd))

/-- Witness for C3 (amended): distinct milliseconds 1 and 2 give the same
title distinct slugs. -/
theorem c3_slug_unique_across_millis_witness :
    genSlug "Charity Gala" 1 ≠ genSlug "Charity Gala" 2 :=
  c3_slug_unique_across_millis "Charity Gala" 1 2 (by decide)

/-! ### C2 — soft-delete / restore round trip -/

theorem deleteEvent_eq (db : DB) (id : EntityId) (e : EventDoc) (now : Millis)
    (hE : db.events id = some e) (hL : e.isDeleted = false) :
    deleteEvent db id now = .ok { db with
      events := fun i => if i = id then
          some (eventSaveHook (some e)
            { e with isDeleted := true, deletedAt := some now } now)
        else db.events i,
      media := deleteEventMedia db.media id e } := by
  unfold deleteEvent
  rw [eventFindById_of hE hL]

theorem restoreEvent_eq (db : DB) (id : EntityId) (e : EventDoc) (now : Millis)
    (hE : db.events id = some e) (hDel : e.isDeleted = true) :
    restoreEvent db id now = .ok ({ db with
      events := fun i => if i = id then
          some (eventSaveHook (some e)
            { e with isDeleted := false, deletedAt := none } now)
        else db.events i,
      media := restoreEventMedia db.media id e }, "Event restored successfully") := by
  unfold restoreEvent
  rw [hE]
  simp [hDel]

theorem usageCount_deleteEventMedia (media : MediaDB) (id : EntityId)
    (e : EventDoc) (m : MediaId) (t : UsageTuple) :
    usageCount (deleteEventMedia media id e) m t =
      if m ∈ eventRefs e ∧ t.model = .event ∧ t.modelId = id then 0
      else usageCount media m t := by
  unfold deleteEventMedia
  rw [usageCount_guardUpdateMany_pullEntity]
  rfl

theorem deleteEventMedia_preserves (media : MediaDB) (id : EntityId)
    (e : EventDoc) (m : MediaId) {d : MediaDoc} (hd : media m = some d) :
    ∃ d', deleteEventMedia media id e m = some d'
      ∧ d'.isDeleted = d.isDeleted := by
  unfold deleteEventMedia
  exact guardUpdateMany_preserves media _ (pullUsageEntity .event id)
    (fun x => rfl) m hd

theorem usageCount_restoreEventMedia (media : MediaDB) (id : EntityId)
    (e : EventDoc) (m : MediaId) (t : UsageTuple)
    (hHero : ∀ h, e.heroImage = some h →
        ∃ d, media h = some d ∧ d.isDeleted = false)
    (hGal : ∀ g ∈ e.gallery, ∃ d, media g = some d) :
    usageCount (restoreEventMedia media id e) m t =
      usageCount media m t
        + (if e.heroImage = some m ∧ t = ⟨.event, id, .heroImage⟩ then 1 else 0)
        + (if m ∈ e.gallery ∧ t = ⟨.event, id, .gallery⟩ then 1 else 0) := by
  unfold restoreEventMedia
  cases hh : e.heroImage with
  | none =>
      dsimp only
      rw [usageCount_guardUpdateMany_push media e.gallery _ m t hGal]
      simp
  | some h =>
      dsimp only
      obtain ⟨dh, hdh, hdl⟩ := hHero h hh
      have hGal2 : ∀ g ∈ e.gallery, ∃ d,
          mediaFindByIdAndUpdate media h
            (pushUsage ⟨.event, id, .heroImage⟩) g = some d := by
        intro g hg
        obtain ⟨d, hd⟩ := hGal g hg
        obtain ⟨d', hd', _⟩ :=
          mediaFindByIdAndUpdate_preserves media h
            (pushUsage ⟨.event, id, .heroImage⟩) (fun x => rfl) g hd
        exact ⟨d', hd'⟩
      rw [usageCount_guardUpdateMany_push _ e.gallery _ m t hGal2,
        usageCount_findUpdate_push_live media h _ m t hdh hdl]
      by_cases hmh : m = h
      · subst hmh
        simp
      · simp [hmh, Ne.symm hmh]

/-- Event half of the round trip: soft-deleting and immediately restoring an
event returns every asset's usage multiset to its pre-delete state, given
that the referenced assets are live and the usage records of this event are
consistent (invariant I1) beforehand. -/
theorem eventRoundTrip_counts (db : DB) (id : EntityId) (e : EventDoc)
    (now1 now2 : Millis)
    (hE : db.events id = some e) (hL : e.isDeleted = false)
    (hRefs : ∀ m ∈ eventRefs e, ∃ d, db.media m = some d ∧ d.isDeleted = false)
    (hInv : ∀ m ∈ eventRefs e, ∀ tf : UsageField,
        usageCount db.media m ⟨.event, id, tf⟩ =
          eventOwnCount e id m ⟨.event, id, tf⟩) :
    ∃ db1 db2, deleteEvent db id now1 = .ok db1
      ∧ restoreEvent db1 id now2 = .ok (db2, "Event restored successfully")
      ∧ ∀ m t, usageCount db2.media m t = usageCount db.media m t := by
  have hframe := eventSaveHook_frame (some e)
    { e with isDeleted := true, deletedAt := some now1 } now1
  have hdel := deleteEvent_eq db id e now1 hE hL
  set e1 : EventDoc := eventSaveHook (some e)
    { e with isDeleted := true, deletedAt := some now1 } now1 with he1
  set db1 : DB := { db with
    events := fun i => if i = id then some e1 else db.events i,
    media := deleteEventMedia db.media id e } with hdb1
  have hh : e1.heroImage = e.heroImage := hframe.2.2.1
  have hg : e1.gallery = e.gallery := hframe.2.2.2.1
  have hE1 : db1.events id = some e1 := by
    rw [hdb1]
    simp
  have hDel1 : e1.isDeleted = true := by
    rw [hframe.2.2.2.2.2.1]
  have hM1 : db1.media = deleteEventMedia db.media id e := by
    rw [hdb1]
  have hrest := restoreEvent_eq db1 id e1 now2 hE1 hDel1
  refine ⟨db1, _, hdel, hrest, ?_⟩
  intro m t
  show usageCount (restoreEventMedia db1.media id e1) m t = usageCount db.media m t
  rw [hM1]
  rw [usageCount_restoreEventMedia _ id _ m t ?hero ?gal]
  case hero =>
    intro h hsome
    rw [hh] at hsome
    have hm : h ∈ eventRefs e := by
      unfold eventRefs
      rw [hsome]
      simp
    obtain ⟨d, hd, hdl⟩ := hRefs h hm
    obtain ⟨d', hd', hdel'⟩ := deleteEventMedia_preserves db.media id e h hd
    exact ⟨d', hd', by rw [hdel', hdl]⟩
  case gal =>
    intro g hgm
    rw [hg] at hgm
    have hm : g ∈ eventRefs e := by
      unfold eventRefs
      simp [hgm]
    obtain ⟨d, hd, _⟩ := hRefs g hm
    obtain ⟨d', hd', _⟩ := deleteEventMedia_preserves db.media id e g hd
    exact ⟨d', hd'⟩
  rw [usageCount_deleteEventMedia, hh, hg]
  by_cases hmem : m ∈ eventRefs e
  · obtain ⟨tm, ti, tf⟩ := t
    by_cases hmod : tm = .event ∧ ti = id
    · obtain ⟨hm1, hm2⟩ := hmod
      subst hm1
      subst hm2
      have hinv := hInv m hmem tf
      rw [hinv]
      cases tf with
      | heroImage =>
          by_cases hher : e.heroImage = some m
          · simp [hher, hmem, eventOwnCount]
          · simp [hher, eventOwnCount]
      | gallery =>
          by_cases hgal : m ∈ e.gallery
          · simp [hgal, hmem, eventOwnCount]
          · simp [hgal, eventOwnCount]
      | video => simp [eventOwnCount]
    · have hn1 : ¬(m ∈ eventRefs e
          ∧ (⟨tm, ti, tf⟩ : UsageTuple).model = .event
          ∧ (⟨tm, ti, tf⟩ : UsageTuple).modelId = id) := by
        rintro ⟨_, hx, hy⟩
        exact hmod ⟨hx, hy⟩
      have hn2 : ¬(e.heroImage = some m
          ∧ (⟨tm, ti, tf⟩ : UsageTuple) = ⟨.event, id, .heroImage⟩) := by
        rintro ⟨_, hx⟩
        simp only [UsageTuple.mk.injEq] at hx
        exact hmod ⟨hx.1, hx.2.1⟩
      have hn3 : ¬(m ∈ e.gallery
          ∧ (⟨tm, ti, tf⟩ : UsageTuple) = ⟨.event, id, .gallery⟩) := by
        rintro ⟨_, hx⟩
        simp only [UsageTuple.mk.injEq] at hx
        exact hmod ⟨hx.1, hx.2.1⟩
      rcases not_and_or.mp hmod with hx | hx <;> simp [hn1, hx]
  · have hher : ¬ e.heroImage = some m := by
      intro hq
      exact hmem (by unfold eventRefs; rw [hq]; simp)
    have hgal : m ∉ e.gallery := by
      intro hq
      exact hmem (by unfold eventRefs; simp [hq])
    simp [hmem, hher, hgal]

theorem deleteBlog_eq (db : DB) (id : EntityId) (b : BlogDoc) (now : Millis)
    (hB : db.blogs id = some b) (hL : b.isDeleted = false) :
    deleteBlog db id now = .ok { db with
      blogs := fun i => if i = id then
          some (blogSaveHook (some b)
            { b with isDeleted := true, deletedAt := some now } now)
        else db.blogs i,
      media := deleteBlogMedia db.media id b } := by
  unfold deleteBlog
  rw [blogFindById_of hB hL]

theorem restoreBlog_eq (db : DB) (id : EntityId) (b : BlogDoc) (now : Millis)
    (hB : db.blogs id = some b) (hDel : b.isDeleted = true) :
    restoreBlog db id now = .ok ({ db with
      blogs := fun i => if i = id then
          some (blogSaveHook (some b)
            { b with isDeleted := false, deletedAt := none } now)
        else db.blogs i,
      media := restoreBlogMedia db.media id b }, "Blog restored successfully") := by
  unfold restoreBlog
  rw [hB]
  simp [hDel]

theorem usageCount_deleteBlogMedia (media : MediaDB) (id : EntityId)
    (b : BlogDoc) (m : MediaId) (t : UsageTuple) :
    usageCount (deleteBlogMedia media id b) m t =
      if m ∈ blogRefs b ∧ t.model = .blog ∧ t.modelId = id then 0
      else usageCount media m t := by
  unfold deleteBlogMedia
  rw [usageCount_guardUpdateMany_pullEntity]
  rfl

theorem deleteBlogMedia_preserves (media : MediaDB) (id : EntityId)
    (b : BlogDoc) (m : MediaId) {d : MediaDoc} (hd : media m = some d) :
    ∃ d', deleteBlogMedia media id b m = some d'
      ∧ d'.isDeleted = d.isDeleted := by
  unfold deleteBlogMedia
  exact guardUpdateMany_preserves media _ (pullUsageEntity .blog id)
    (fun x => rfl) m hd

theorem usageCount_restoreBlogMedia (media : MediaDB) (id : EntityId)
    (b : BlogDoc) (m : MediaId) (t : UsageTuple)
    (hHero : ∀ h, b.heroImage = some h →
        ∃ d, media h = some d ∧ d.isDeleted = false)
    (hGal : ∀ g ∈ b.gallery, ∃ d, media g = some d)
    (hVid : ∀ v, b.video = some v →
        ∃ d, media v = some d ∧ d.isDeleted = false) :
    usageCount (restoreBlogMedia media id b) m t =
      usageCount media m t
        + (if b.heroImage = some m ∧ t = ⟨.blog, id, .heroImage⟩ then 1 else 0)
        + (if m ∈ b.gallery ∧ t = ⟨.blog, id, .gallery⟩ then 1 else 0)
        + (if b.video = some m ∧ t = ⟨.blog, id, .video⟩ then 1 else 0) := by
  have hero1 : ∀ (m' : MediaId) (t' : UsageTuple),
      usageCount (match b.heroImage with
        | some h => mediaFindByIdAndUpdate media h (pushUsage ⟨.blog, id, .heroImage⟩)
        | none => media) m' t'
      = usageCount media m' t'
          + (if b.heroImage = some m' ∧ t' = ⟨.blog, id, .heroImage⟩ then 1 else 0) := by
    intro m' t'
    cases hhh : b.heroImage with
    | none => simp
    | some h =>
        obtain ⟨dh, hdh, hdl⟩ := hHero h hhh
        rw [usageCount_findUpdate_push_live media h _ m' t' hdh hdl]
        by_cases hmh : m' = h
        · subst hmh
          simp
        · simp [hmh, Ne.symm hmh]
  have hero2 : ∀ (g : MediaId) (d : MediaDoc), media g = some d →
      ∃ d', (match b.heroImage with
        | some h => mediaFindByIdAndUpdate media h (pushUsage ⟨.blog, id, .heroImage⟩)
        | none => media) g = some d' ∧ d'.isDeleted = d.isDeleted := by
    intro g d hd
    cases b.heroImage with
    | none => exact ⟨d, hd, rfl⟩
    | some h =>
        exact mediaFindByIdAndUpdate_preserves media h
          (pushUsage ⟨.blog, id, .heroImage⟩) (fun x => rfl) g hd
  have galEx : ∀ g ∈ b.gallery, ∃ d, (match b.heroImage with
      | some h => mediaFindByIdAndUpdate media h (pushUsage ⟨.blog, id, .heroImage⟩)
      | none => media) g = some d := by
    intro g hg
    obtain ⟨d, hd⟩ := hGal g hg
    obtain ⟨d', hd', _⟩ := hero2 g d hd
    exact ⟨d', hd'⟩
  unfold restoreBlogMedia
  dsimp only
  cases hvv : b.video with
  | none =>
      rw [usageCount_guardUpdateMany_push _ b.gallery _ m t galEx, hero1 m t]
      simp
  | some v =>
      obtain ⟨dv, hdv, hdvl⟩ := hVid v hvv
      obtain ⟨dv1, hdv1, hdvl1⟩ := hero2 v dv hdv
      obtain ⟨dv2, hdv2, hdvl2⟩ := guardUpdateMany_preserves _ b.gallery
        (pushUsage ⟨.blog, id, .gallery⟩) (fun x => rfl) v hdv1
      rw [usageCount_findUpdate_push_live _ v _ m t hdv2
        (by rw [hdvl2, hdvl1, hdvl])]
      rw [usageCount_guardUpdateMany_push _ b.gallery _ m t galEx, hero1 m t]
      by_cases hmv : m = v
      · subst hmv
        simp
      · simp [hmv, Ne.symm hmv]

/-- Blog half of the round trip. -/
theorem blogRoundTrip_counts (db : DB) (id : EntityId) (b : BlogDoc)
    (now1 now2 : Millis)
    (hB : db.blogs id = some b) (hL : b.isDeleted = false)
    (hRefs : ∀ m ∈ blogRefs b, ∃ d, db.media m = some d ∧ d.isDeleted = false)
    (hInv : ∀ m ∈ blogRefs b, ∀ tf : UsageField,
        usageCount db.media m ⟨.blog, id, tf⟩ =
          blogOwnCount b id m ⟨.blog, id, tf⟩) :
    ∃ db1 db2, deleteBlog db id now1 = .ok db1
      ∧ restoreBlog db1 id now2 = .ok (db2, "Blog restored successfully")
      ∧ ∀ m t, usageCount db2.media m t = usageCount db.media m t := by
  have hframe := blogSaveHook_frame (some b)
    { b with isDeleted := true, deletedAt := some now1 } now1
  have hdel := deleteBlog_eq db id b now1 hB hL
  set b1 : BlogDoc := blogSaveHook (some b)
    { b with isDeleted := true, deletedAt := some now1 } now1 with hb1
  set db1 : DB := { db with
    blogs := fun i => if i = id then some b1 else db.blogs i,
    media := deleteBlogMedia db.media id b } with hdb1
  have hh : b1.heroImage = b.heroImage := hframe.2.2.1
  have hg : b1.gallery = b.gallery := hframe.2.2.2.1
  have hv : b1.video = b.video := hframe.2.2.2.2.1
  have hB1 : db1.blogs id = some b1 := by
    rw [hdb1]
    simp
  have hDel1 : b1.isDeleted = true := by
    rw [hframe.2.2.2.2.2.2.1]
  have hM1 : db1.media = deleteBlogMedia db.media id b := by
    rw [hdb1]
  have hrest := restoreBlog_eq db1 id b1 now2 hB1 hDel1
  refine ⟨db1, _, hdel, hrest, ?_⟩
  intro m t
  show usageCount (restoreBlogMedia db1.media id b1) m t = usageCount db.media m t
  rw [hM1]
  rw [usageCount_restoreBlogMedia _ id _ m t ?hero ?gal ?vid]
  case hero =>
    intro h hsome
    rw [hh] at hsome
    have hm : h ∈ blogRefs b := by
      unfold blogRefs
      rw [hsome]
      simp
    obtain ⟨d, hd, hdl⟩ := hRefs h hm
    obtain ⟨d', hd', hdel'⟩ := deleteBlogMedia_preserves db.media id b h hd
    exact ⟨d', hd', by rw [hdel', hdl]⟩
  case gal =>
    intro g hgm
    rw [hg] at hgm
    have hm : g ∈ blogRefs b := by
      unfold blogRefs
      simp [hgm]
    obtain ⟨d, hd, _⟩ := hRefs g hm
    obtain ⟨d', hd', _⟩ := deleteBlogMedia_preserves db.media id b g hd
    exact ⟨d', hd'⟩
  case vid =>
    intro v hsome
    rw [hv] at hsome
    have hm : v ∈ blogRefs b := by
      unfold blogRefs
      rw [hsome]
      simp
    obtain ⟨d, hd, hdl⟩ := hRefs v hm
    obtain ⟨d', hd', hdel'⟩ := deleteBlogMedia_preserves db.media id b v hd
    exact ⟨d', hd', by rw [hdel', hdl]⟩
  rw [usageCount_deleteBlogMedia, hh, hg, hv]
  by_cases hmem : m ∈ blogRefs b
  · obtain ⟨tm, ti, tf⟩ := t
    by_cases hmod : tm = .blog ∧ ti = id
    · obtain ⟨hm1, hm2⟩ := hmod
      subst hm1
      subst hm2
      have hinv := hInv m hmem tf
      rw [hinv]
      cases tf with
      | heroImage =>
          by_cases hher : b.heroImage = some m
          · simp [hher, hmem, blogOwnCount]
          · simp [hher, blogOwnCount]
      | gallery =>
          by_cases hgal : m ∈ b.gallery
          · simp [hgal, hmem, blogOwnCount]
          · simp [hgal, blogOwnCount]
      | video =>
          by_cases hvid : b.video = some m
          · simp [hvid, hmem, blogOwnCount]
          · simp [hvid, blogOwnCount]
    · have hn1 : ¬(m ∈ blogRefs b
          ∧ (⟨tm, ti, tf⟩ : UsageTuple).model = .blog
          ∧ (⟨tm, ti, tf⟩ : UsageTuple).modelId = id) := by
        rintro ⟨_, hx, hy⟩
        exact hmod ⟨hx, hy⟩
      rcases not_and_or.mp hmod with hx | hx <;> simp [hn1, hx]
  · have hher : ¬ b.heroImage = some m := by
      intro hq
      exact hmem (by unfold blogRefs; rw [hq]; simp)
    have hgal : m ∉ b.gallery := by
      intro hq
      exact hmem (by unfold blogRefs; simp [hq])
    have hvid : ¬ b.video = some m := by
      intro hq
      exact hmem (by unfold blogRefs; rw [hq]; simp)
    simp [hmem, hher, hgal, hvid]

/-- C2: for an event (first conjunct) or blog (second conjunct) whose
referenced assets all exist and are not deleted, and whose usage records are
consistent with its references (invariant I1), a soft delete immediately
followed by a restore leaves every asset's `usedIn` multiset (hence set)
exactly as before the delete. -/
theorem c2_soft_delete_restore_round_trip :
    (∀ (db : DB) (id : EntityId) (e : EventDoc) (now1 now2 : Millis),
      db.events id = some e → e.isDeleted = false →
      (∀ m ∈ eventRefs e, ∃ d, db.media m = some d ∧ d.isDeleted = false) →
      (∀ m ∈ eventRefs e, ∀ tf : UsageField,
          usageCount db.media m ⟨.event, id, tf⟩ =
            eventOwnCount e id m ⟨.event, id, tf⟩) →
      ∃ db1 db2, deleteEvent db id now1 = .ok db1
        ∧ restoreEvent db1 id now2 = .ok (db2, "Event restored successfully")
        ∧ ∀ m t, usageCount db2.media m t = usageCount db.media m t)
      ∧ (∀ (db : DB) (id : EntityId) (b : BlogDoc) (now1 now2 : Millis),
        db.blogs id = some b → b.isDeleted = false →
        (∀ m ∈ blogRefs b, ∃ d, db.media m = some d ∧ d.isDeleted = false) →
        (∀ m ∈ blogRefs b, ∀ tf : UsageField,
            usageCount db.media m ⟨.blog, id, tf⟩ =
              blogOwnCount b id m ⟨.blog, id, tf⟩) →
        ∃ db1 db2, deleteBlog db id now1 = .ok db1
          ∧ restoreBlog db1 id now2 = .ok (db2, "Blog restored successfully")
          ∧ ∀ m t, usageCount db2.media m t = usageCount db.media m t) :=
  ⟨fun db id e n1 n2 h1 h2 h3 h4 =>
      eventRoundTrip_counts db id e n1 n2 h1 h2 h3 h4,
   fun db id b n1 n2 h1 h2 h3 h4 =>
      blogRoundTrip_counts db id b n1 n2 h1 h2 h3 h4⟩

/-- Witness for C2 at the concrete store `dbC2`: the event and blog round
trips preserve all usage counts. -/
theorem c2_soft_delete_restore_round_trip_witness :
    (∃ db1 db2, deleteEvent dbC2 1 70 = .ok db1
      ∧ restoreEvent db1 1 80 = .ok (db2, "Event restored successfully")
      ∧ ∀ m t, usageCount db2.media m t = usageCount dbC2.media m t)
    ∧ (∃ db1 db2, deleteBlog dbC2 2 70 = .ok db1
      ∧ restoreBlog db1 2 80 = .ok (db2, "Blog restored successfully")
      ∧ ∀ m t, usageCount db2.media m t = usageCount dbC2.media m t) :=
  ⟨c2_soft_delete_restore_round_trip.1 dbC2 1 evC2 70 80 rfl rfl
      (by
        intro m hm
        rw [show eventRefs evC2 = [41, 42] from rfl] at hm
        simp only [List.mem_cons, List.not_mem_nil, or_false] at hm
        rcases hm with rfl | rfl
        · exact ⟨_, rfl, rfl⟩
        · exact ⟨_, rfl, rfl⟩)
      (by
        intro m hm tf
        rw [show eventRefs evC2 = [41, 42] from rfl] at hm
        simp only [List.mem_cons, List.not_mem_nil, or_false] at hm
        rcases hm with rfl | rfl <;> cases tf <;> decide),
   c2_soft_delete_restore_round_trip.2 dbC2 2 blC2 70 80 rfl rfl
      (by
        intro m hm
        rw [show blogRefs blC2 = [41, 43, 42] from rfl] at hm
        simp only [List.mem_cons, List.not_mem_nil, or_false] at hm
        rcases hm with rfl | rfl | rfl
        · exact ⟨_, rfl, rfl⟩
        · exact ⟨_, rfl, rfl⟩
        · exact ⟨_, rfl, rfl⟩)
      (by
        intro m hm tf
        rw [show blogRefs blC2 = [41, 43, 42] from rfl] at hm
        simp only [List.mem_cons, List.not_mem_nil, or_false] at hm
        rcases hm with rfl | rfl | rfl <;> cases tf <;> decide)⟩

/-! ### C1 — hero-image delta correctness -/

/-- C1: for an event (first conjunct) or blog (second conjunct) whose
heroImage is updated from live asset `a` to a different live asset `b`, after
the update `a` carries no copy of the hero tuple and `b` carries it; and every
gallery asset present in both the old and the new gallery keeps exactly one
gallery tuple — no duplicate is added by a save whose gallery is unchanged. -/
theorem c1_hero_delta_gallery_stable :
    (∀ (db : DB) (id : EntityId) (e : EventDoc) (p : EventPatch)
        (actor : UserId) (now : Millis) (a b : MediaId) (da dbb : MediaDoc),
      db.events id = some e → e.isDeleted = false →
      e.heroImage = some a → p.heroImage = some (some b) → a ≠ b →
      db.media a = some da → da.isDeleted = false →
      db.media b = some dbb → dbb.isDeleted = false →
      ∃ db', updateEvent db id p actor now = .ok db'
        ∧ usageCount db'.media a ⟨.event, id, .heroImage⟩ = 0
        ∧ 0 < usageCount db'.media b ⟨.event, id, .heroImage⟩
        ∧ ∀ g, g ∈ e.gallery → g ∈ p.gallery.getD e.gallery →
            usageCount db.media g ⟨.event, id, .gallery⟩ = 1 →
            usageCount db'.media g ⟨.event, id, .gallery⟩ = 1)
      ∧ (∀ (db : DB) (id : EntityId) (bd : BlogDoc) (p : BlogPatch)
          (actor : UserId) (now : Millis) (a c : MediaId) (da dcc : MediaDoc),
        db.blogs id = some bd → bd.isDeleted = false →
        bd.heroImage = some a → p.heroImage = some c → a ≠ c →
        db.media a = some da → da.isDeleted = false →
        db.media c = some dcc → dcc.isDeleted = false →
        ∃ db', updateBlog db id p actor now = .ok db'
          ∧ usageCount db'.media a ⟨.blog, id, .heroImage⟩ = 0
          ∧ 0 < usageCount db'.media c ⟨.blog, id, .heroImage⟩
          ∧ ∀ g, g ∈ bd.gallery → g ∈ p.gallery.getD bd.gallery →
              usageCount db.media g ⟨.blog, id, .gallery⟩ = 1 →
              usageCount db'.media g ⟨.blog, id, .gallery⟩ = 1) := by
  constructor
  · intro db id e p actor now a b da dbb hE hL hA hP hab hda hdal hdb hdbl
    have hfind := eventFindById_of hE hL
    have hhero : (eventSaveHook (some e) (applyEventPatch e p actor) now).heroImage
        = some b := by
      rw [(eventSaveHook_frame (some e) (applyEventPatch e p actor) now).2.2.1]
      show p.heroImage.getD e.heroImage = some b
      rw [hP]
      rfl
    have hgal : (eventSaveHook (some e) (applyEventPatch e p actor) now).gallery
        = p.gallery.getD e.gallery := by
      rw [(eventSaveHook_frame (some e) (applyEventPatch e p actor) now).2.2.2.1]
      rfl
    unfold updateEvent
    rw [hfind]
    refine ⟨_, rfl, ?_, ?_, ?_⟩
    · rw [hA, hhero, hgal]
      unfold eventMediaFixup
      rw [galleryFixup_count_ne .event _ id _ _ (by simp) a]
      exact heroFixup_pulled .event db.media id hab hda hdal
    · rw [hA, hhero, hgal]
      unfold eventMediaFixup
      rw [galleryFixup_count_ne .event _ id _ _ (by simp) b,
        heroFixup_pushed .event db.media id hab hdb hdbl]
      omega
    · intro g hg1 hg2 hcnt
      rw [hA, hhero, hgal]
      unfold eventMediaFixup
      rw [usageCount_congr_apply
        (galleryFixup_apply_mem_both .event _ id _ _ hg1 hg2)]
      rw [heroFixup_count_ne .event db.media id _ _ (by simp) g]
      exact hcnt
  · intro db id bd p actor now a c da dcc hB hL hA hP hac hda hdal hdc hdcl
    have hfind := blogFindById_of hB hL
    have hhero : (blogSaveHook (some bd) (applyBlogPatch bd p actor) now).heroImage
        = some c := by
      rw [(blogSaveHook_frame (some bd) (applyBlogPatch bd p actor) now).2.2.1]
      show (p.heroImage.map some).getD bd.heroImage = some c
      rw [hP]
      rfl
    have hgal : (blogSaveHook (some bd) (applyBlogPatch bd p actor) now).gallery
        = p.gallery.getD bd.gallery := by
      rw [(blogSaveHook_frame (some bd) (applyBlogPatch bd p actor) now).2.2.2.1]
      rfl
    unfold updateBlog
    rw [hfind]
    refine ⟨_, rfl, ?_, ?_, ?_⟩
    · rw [hA, hhero, hgal]
      unfold blogMediaFixup
      rw [videoFixup_count_ne _ id _ _ (by simp) a,
        galleryFixup_count_ne .blog _ id _ _ (by simp) a]
      exact heroFixup_pulled .blog db.media id hac hda hdal
    · rw [hA, hhero, hgal]
      unfold blogMediaFixup
      rw [videoFixup_count_ne _ id _ _ (by simp) c,
        galleryFixup_count_ne .blog _ id _ _ (by simp) c,
        heroFixup_pushed .blog db.media id hac hdc hdcl]
      omega
    · intro g hg1 hg2 hcnt
      rw [hA, hhero, hgal]
      unfold blogMediaFixup
      rw [videoFixup_count_ne _ id _ _ (by simp) g]
      rw [usageCount_congr_apply
        (galleryFixup_apply_mem_both .blog _ id _ _ hg1 hg2)]
      rw [heroFixup_count_ne .blog db.media id _ _ (by simp) g]
      exact hcnt

/-- Witness for C1 at the concrete store `dbC1`: replacing hero 11 by 12 on
event 1 and on blog 1. -/
theorem c1_hero_delta_gallery_stable_witness :
    (∃ db', updateEvent dbC1 1 patchC1 9 500 = .ok db'
      ∧ usageCount db'.media 11 ⟨.event, 1, .heroImage⟩ = 0
      ∧ 0 < usageCount db'.media 12 ⟨.event, 1, .heroImage⟩
      ∧ ∀ g, g ∈ evC1.gallery → g ∈ patchC1.gallery.getD evC1.gallery →
          usageCount dbC1.media g ⟨.event, 1, .gallery⟩ = 1 →
          usageCount db'.media g ⟨.event, 1, .gallery⟩ = 1)
    ∧ (∃ db', updateBlog dbC1 1 patchC1Blog 9 500 = .ok db'
      ∧ usageCount db'.media 11 ⟨.blog, 1, .heroImage⟩ = 0
      ∧ 0 < usageCount db'.media 12 ⟨.blog, 1, .heroImage⟩
      ∧ ∀ g, g ∈ blC1.gallery → g ∈ patchC1Blog.gallery.getD blC1.gallery →
          usageCount dbC1.media g ⟨.blog, 1, .gallery⟩ = 1 →
          usageCount db'.media g ⟨.blog, 1, .gallery⟩ = 1) :=
  ⟨c1_hero_delta_gallery_stable.1 dbC1 1 evC1 patchC1 9 500 11 12 mdHeroC1 mdNewC1
      rfl rfl rfl rfl (by decide) rfl rfl rfl rfl,
   c1_hero_delta_gallery_stable.2 dbC1 1 blC1 patchC1Blog 9 500 11 12 mdHeroC1 mdNewC1
      rfl rfl rfl rfl (by decide) rfl rfl rfl rfl⟩

/-! ### C7 — restore of soft-deleted references is skipped silently -/

/-- C7 counterexample: restoring event 1, whose hero asset 31 is soft-deleted,
answers the plain fixed success message — the response carries no
PartialRestore report of the skipped reattachment — while asset 31 is indeed
left untouched (its hero tuple is not re-added). -/
theorem c7_skip_not_reported :
    ∃ db', restoreEvent dbC7 1 10 = .ok (db', "Event restored successfully")
      ∧ db'.media 31 = some mdDelHeroC7
      ∧ usageCount db'.media 31 ⟨.event, 1, .heroImage⟩ = 0 :=
  ⟨_, rfl, rfl, rfl⟩

/-- C7 amended: when a restored event's hero asset is missing from the live
view (soft-deleted), its reattachment is skipped *silently*: the restore
succeeds (the event becomes live and every existing gallery asset gets its
tuple back — even a soft-deleted one, since the gallery `updateMany` bypasses
the deleted filter), the hero asset is untouched, and the response is the
constant success message with no per-asset outcome. -/
theorem c7_restore_silent_skip (db : DB) (id : EntityId) (e : EventDoc)
    (now : Millis) {h : MediaId}
    (hE : db.events id = some e) (hDel : e.isDeleted = true)
    (hHero : e.heroImage = some h) (hng : h ∉ e.gallery)
    {dh : MediaDoc} (hdh : db.media h = some dh) (hdhDel : dh.isDeleted = true) :
    ∃ db', restoreEvent db id now = .ok (db', "Event restored successfully")
      ∧ db'.media h = some dh
      ∧ (∀ e', db'.events id = some e' → e'.isDeleted = false)
      ∧ (∀ g, g ∈ e.gallery → ∀ dg, db.media g = some dg →
          usageCount db'.media g ⟨.event, id, .gallery⟩ =
            usageCount db.media g ⟨.event, id, .gallery⟩ + 1) := by
  refine ⟨_, restoreEvent_eq db id e now hE hDel, ?_, ?_, ?_⟩
  · show restoreEventMedia db.media id e h = some dh
    unfold restoreEventMedia
    rw [hHero]
    dsimp only
    rw [guardUpdateMany_apply_not_mem _ _ _ hng]
    exact mediaFindByIdAndUpdate_apply_deleted db.media h _ hdh hdhDel
  · intro e' he'
    have hx : (if id = id then
        some (eventSaveHook (some e)
          { e with isDeleted := false, deletedAt := none } now)
        else db.events id) = some e' := he'
    rw [if_pos rfl] at hx
    rw [← Option.some.inj hx]
    exact (eventSaveHook_frame _ _ _).2.2.2.2.2.1
  · intro g hg dg hdg
    show usageCount (restoreEventMedia db.media id e) g ⟨.event, id, .gallery⟩ =
      usageCount db.media g ⟨.event, id, .gallery⟩ + 1
    unfold restoreEventMedia
    rw [hHero]
    dsimp only
    have hne : g ≠ h := fun hq => hng (hq ▸ hg)
    have hm1g : mediaFindByIdAndUpdate db.media h
        (pushUsage ⟨.event, id, .heroImage⟩) g = some dg := by
      rw [mediaFindByIdAndUpdate_apply_ne db.media h _ hne]
      exact hdg
    unfold usageCount
    rw [if_pos (List.ne_nil_of_mem hg),
      mediaUpdateMany_apply_mem _ e.gallery _ hg, hm1g, hdg]
    dsimp only [Option.map]
    rw [count_pushUsage]
    simp

/-- Witness for C7 (amended) at the concrete store `dbC7`. -/
theorem c7_restore_silent_skip_witness :
    ∃ db', restoreEvent dbC7 1 10 = .ok (db', "Event restored successfully")
      ∧ db'.media 31 = some mdDelHeroC7
      ∧ (∀ e', db'.events 1 = some e' → e'.isDeleted = false)
      ∧ (∀ g, g ∈ evC7.gallery → ∀ dg, dbC7.media g = some dg →
          usageCount db'.media g ⟨.event, 1, .gallery⟩ =
            usageCount dbC7.media g ⟨.event, 1, .gallery⟩ + 1) :=
  c7_restore_silent_skip dbC7 1 evC7 10 rfl rfl rfl (by decide) rfl rfl

/-! ### C10 — stripUnknown validation and the frame of an update -/

theorem applyEventPatch_title (e : EventDoc) (p : EventPatch) (actor : UserId) :
    (applyEventPatch e p actor).title = p.title.getD e.title := rfl

theorem applyEventPatch_status (e : EventDoc) (p : EventPatch) (actor : UserId) :
    (applyEventPatch e p actor).status = p.status.getD e.status := rfl

theorem applyEventPatch_slug (e : EventDoc) (p : EventPatch) (actor : UserId) :
    (applyEventPatch e p actor).slug = e.slug := rfl

/-- A validated patch carries the body's `title` and `status` (and, by
construction, no field outside the schema). -/
theorem validateEventUpdate_fields {b : EventUpdateBody} {p : EventPatch}
    (h : validateEventUpdate b = .ok p) :
    p.title = b.title ∧ p.status = b.status := by
  unfold validateEventUpdate at h
  by_cases hvb : eventUpdateBodyValid b
  · rw [if_pos hvb] at h
    injection h with h2
    rw [← h2]
    exact ⟨rfl, rfl⟩
  · rw [if_neg hvb] at h
    exact absurd h (by simp)

/-- A successful `updateEvent` stores exactly the hook-processed patched
document at `id`. -/
theorem updateEvent_ok_doc (db : DB) (id : EntityId) (p : EventPatch)
    (actor : UserId) (now : Millis) (db' : DB) {e0 : EventDoc}
    (hE : db.events id = some e0) (hLive : e0.isDeleted = false)
    (hok : updateEvent db id p actor now = .ok db') :
    ∀ e, db'.events id = some e →
      e = eventSaveHook (some e0) (applyEventPatch e0 p actor) now := by
  intro e he
  have hfind : eventFindById db.events id = some e0 := by
    unfold eventFindById
    rw [hE]
    simp [hLive]
  unfold updateEvent at hok
  rw [hfind] at hok
  dsimp only at hok
  injection hok with hok2
  rw [← hok2] at he
  have hx : (if id = id then
      some (eventSaveHook (some e0) (applyEventPatch e0 p actor) now)
      else db.events id) = some e := he
  rw [if_pos rfl] at hx
  exact (Option.some.inj hx).symm

/-- The event half of the update frame property: through the full pipeline a
stored update of a live event never changes `views`, `isDeleted`, `deletedAt`
or `createdBy`; slug and `publishedAt` change only through the save hook. -/
theorem eventUpdateFrame (db : DB) (id : EntityId) (b : EventUpdateBody)
    (actor : UserId) (now : Millis) (db' : DB) (e0 : EventDoc)
    (hE : db.events id = some e0) (hLive : e0.isDeleted = false)
    (hok : handleEventUpdate db id b actor now = .ok db') :
    ∀ e, db'.events id = some e →
      e.views = e0.views ∧ e.isDeleted = e0.isDeleted
        ∧ e.deletedAt = e0.deletedAt ∧ e.createdBy = e0.createdBy
        ∧ (e.slug ≠ e0.slug →
            ∃ tt, b.title = some tt ∧ tt ≠ e0.title ∧ e.slug = genSlug tt now)
        ∧ (e.publishedAt ≠ e0.publishedAt →
            e0.publishedAt = none ∧ e.status = ContentStatus.published
              ∧ e.status ≠ e0.status ∧ e.publishedAt = some now) := by
  intro e he
  unfold handleEventUpdate at hok
  cases hv : validateEventUpdate b with
  | error err =>
      rw [hv] at hok
      dsimp only at hok
      exact absurd hok (by simp)
  | ok p =>
      rw [hv] at hok
      dsimp only at hok
      obtain ⟨hpt, hps⟩ := validateEventUpdate_fields hv
      have hdoc := updateEvent_ok_doc db id p actor now db' hE hLive hok e he
      subst hdoc
      refine ⟨(eventSaveHook_frame _ _ _).2.2.2.2.1,
        (eventSaveHook_frame _ _ _).2.2.2.2.2.1,
        (eventSaveHook_frame _ _ _).2.2.2.2.2.2.1,
        (eventSaveHook_frame _ _ _).2.2.2.2.2.2.2.1, ?_, ?_⟩
      · intro hs
        rw [eventSaveHook_slug, applyEventPatch_title, applyEventPatch_slug,
          hpt] at hs
        cases htit : b.title with
        | none =>
            rw [htit] at hs
            simp at hs
        | some tt =>
            rw [htit] at hs
            by_cases htt : tt = e0.title
            · rw [htt] at hs
              simp at hs
            · refine ⟨tt, rfl, htt, ?_⟩
              rw [eventSaveHook_slug, applyEventPatch_title, hpt, htit]
              simp [htt]
      · intro hp
        rw [eventSaveHook_publishedAt, applyEventPatch_publishedAt,
          applyEventPatch_status, hps] at hp
        by_cases hc : ((b.status.getD e0.status != e0.status)
            && (b.status.getD e0.status == ContentStatus.published)
            && e0.publishedAt.isNone) = true
        · have hc2 := hc
          simp only [Bool.and_eq_true, bne_iff_ne, ne_eq, beq_iff_eq,
            Option.isNone_iff_eq_none] at hc2
          obtain ⟨⟨hst, hpub⟩, hnone⟩ := hc2
          refine ⟨hnone, ?_, ?_, ?_⟩
          · rw [(eventSaveHook_frame _ _ _).2.1, applyEventPatch_status, hps]
            exact hpub
          · rw [(eventSaveHook_frame _ _ _).2.1, applyEventPatch_status, hps]
            exact hst
          · rw [eventSaveHook_publishedAt, applyEventPatch_publishedAt,
              applyEventPatch_status, hps, if_pos hc]
        · rw [if_neg hc] at hp
          exact absurd rfl hp

theorem applyBlogPatch_title (b : BlogDoc) (p : BlogPatch) (actor : UserId) :
    (applyBlogPatch b p actor).title = p.title.getD b.title := rfl

theorem applyBlogPatch_status (b : BlogDoc) (p : BlogPatch) (actor : UserId) :
    (applyBlogPatch b p actor).status = p.status.getD b.status := rfl

theorem applyBlogPatch_slug (b : BlogDoc) (p : BlogPatch) (actor : UserId) :
    (applyBlogPatch b p actor).slug = b.slug := rfl

theorem applyBlogPatch_publishedAt (b : BlogDoc) (p : BlogPatch) (actor : UserId) :
    (applyBlogPatch b p actor).publishedAt = b.publishedAt := rfl

/-- The slug written by a save of an existing blog: regenerated exactly when
the title is modified. -/
theorem blogSaveHook_slug (o d : BlogDoc) (now : Millis) :
    (blogSaveHook (some o) d now).slug =
      if d.title != o.title then genSlug d.title now else d.slug := by
  unfold blogSaveHook
  by_cases h1 : d.title = o.title <;> by_cases h2 : d.status = o.status <;>
    by_cases h3 : d.status = ContentStatus.published <;>
    by_cases h4 : d.publishedAt = none <;>
    simp_all [Option.isNone_iff_eq_none, bne_iff_ne]

/-- A validated blog patch carries the body's `title` and `status`. -/
theorem validateBlogUpdate_fields {b : BlogUpdateBody} {p : BlogPatch}
    (h : validateBlogUpdate b = .ok p) :
    p.title = b.title ∧ p.status = b.status := by
  unfold validateBlogUpdate at h
  by_cases hvb : blogUpdateBodyValid b
  · rw [if_pos hvb] at h
    injection h with h2
    rw [← h2]
    exact ⟨rfl, rfl⟩
  · rw [if_neg hvb] at h
    exact absurd h (by simp)

/-- A successful `updateBlog` stores exactly the hook-processed patched
document at `id`. -/
theorem updateBlog_ok_doc (db : DB) (id : EntityId) (p : BlogPatch)
    (actor : UserId) (now : Millis) (db' : DB) {b0 : BlogDoc}
    (hB : db.blogs id = some b0) (hLive : b0.isDeleted = false)
    (hok : updateBlog db id p actor now = .ok db') :
    ∀ bl, db'.blogs id = some bl →
      bl = blogSaveHook (some b0) (applyBlogPatch b0 p actor) now := by
  intro bl hbl
  have hfind : blogFindById db.blogs id = some b0 := by
    unfold blogFindById
    rw [hB]
    simp [hLive]
  unfold updateBlog at hok
  rw [hfind] at hok
  dsimp only at hok
  injection hok with hok2
  rw [← hok2] at hbl
  have hx : (if id = id then
      some (blogSaveHook (some b0) (applyBlogPatch b0 p actor) now)
      else db.blogs id) = some bl := hbl
  rw [if_pos rfl] at hx
  exact (Option.some.inj hx).symm

/-- The blog half of the update frame property, mirroring
`eventUpdateFrame` through `handleBlogUpdate`. -/
theorem blogUpdateFrame (db : DB) (id : EntityId) (b : BlogUpdateBody)
    (actor : UserId) (now : Millis) (db' : DB) (b0 : BlogDoc)
    (hB : db.blogs id = some b0) (hLive : b0.isDeleted = false)
    (hok : handleBlogUpdate db id b actor now = .ok db') :
    ∀ bl, db'.blogs id = some bl →
      bl.views = b0.views ∧ bl.isDeleted = b0.isDeleted
        ∧ bl.deletedAt = b0.deletedAt ∧ bl.createdBy = b0.createdBy
        ∧ (bl.slug ≠ b0.slug →
            ∃ tt, b.title = some tt ∧ tt ≠ b0.title ∧ bl.slug = genSlug tt now)
        ∧ (bl.publishedAt ≠ b0.publishedAt →
            b0.publishedAt = none ∧ bl.status = ContentStatus.published
              ∧ bl.status ≠ b0.status ∧ bl.publishedAt = some now) := by
  intro bl hbl
  unfold handleBlogUpdate at hok
  cases hv : validateBlogUpdate b with
  | error err =>
      rw [hv] at hok
      dsimp only at hok
      exact absurd hok (by simp)
  | ok p =>
      rw [hv] at hok
      dsimp only at hok
      obtain ⟨hpt, hps⟩ := validateBlogUpdate_fields hv
      have hdoc := updateBlog_ok_doc db id p actor now db' hB hLive hok bl hbl
      subst hdoc
      refine ⟨(blogSaveHook_frame _ _ _).2.2.2.2.2.1,
        (blogSaveHook_frame _ _ _).2.2.2.2.2.2.1,
        (blogSaveHook_frame _ _ _).2.2.2.2.2.2.2.1,
        (blogSaveHook_frame _ _ _).2.2.2.2.2.2.2.2, ?_, ?_⟩
      · intro hs
        rw [blogSaveHook_slug, applyBlogPatch_title, applyBlogPatch_slug,
          hpt] at hs
        cases htit : b.title with
        | none =>
            rw [htit] at hs
            simp at hs
        | some tt =>
            rw [htit] at hs
            by_cases htt : tt = b0.title
            · rw [htt] at hs
              simp at hs
            · refine ⟨tt, rfl, htt, ?_⟩
              rw [blogSaveHook_slug, applyBlogPatch_title, hpt, htit]
              simp [htt]
      · intro hp
        rw [blogSaveHook_publishedAt, applyBlogPatch_publishedAt,
          applyBlogPatch_status, hps] at hp
        by_cases hc : ((b.status.getD b0.status != b0.status)
            && (b.status.getD b0.status == ContentStatus.published)
            && b0.publishedAt.isNone) = true
        · have hc2 := hc
          simp only [Bool.and_eq_true, bne_iff_ne, ne_eq, beq_iff_eq,
            Option.isNone_iff_eq_none] at hc2
          obtain ⟨⟨hst, hpub⟩, hnone⟩ := hc2
          refine ⟨hnone, ?_, ?_, ?_⟩
          · rw [(blogSaveHook_frame _ _ _).2.1, applyBlogPatch_status, hps]
            exact hpub
          · rw [(blogSaveHook_frame _ _ _).2.1, applyBlogPatch_status, hps]
            exact hst
          · rw [blogSaveHook_publishedAt, applyBlogPatch_publishedAt,
              applyBlogPatch_status, hps, if_pos hc]
        · rw [if_neg hc] at hp
          exact absurd rfl hp

/-- C10: through the full update pipeline (validateRequest with stripUnknown,
then the controller), a stored update of a live event or blog never changes
`views`, `isDeleted`, `deletedAt` or `createdBy`, whatever the raw body
carried; the slug changes only when the body supplies a new title (to the
hook-generated slug), and `publishedAt` changes only on a first transition to
published (to the save timestamp) — never to a value taken from the body. -/
theorem c10_update_frame :
    (∀ (db : DB) (id : EntityId) (b : EventUpdateBody) (actor : UserId)
        (now : Millis) (db' : DB) (e0 : EventDoc),
      db.events id = some e0 → e0.isDeleted = false →
      handleEventUpdate db id b actor now = .ok db' →
      ∀ e, db'.events id = some e →
        e.views = e0.views ∧ e.isDeleted = e0.isDeleted
          ∧ e.deletedAt = e0.deletedAt ∧ e.createdBy = e0.createdBy
          ∧ (e.slug ≠ e0.slug →
              ∃ tt, b.title = some tt ∧ tt ≠ e0.title ∧ e.slug = genSlug tt now)
          ∧ (e.publishedAt ≠ e0.publishedAt →
              e0.publishedAt = none ∧ e.status = ContentStatus.published
                ∧ e.status ≠ e0.status ∧ e.publishedAt = some now))
    ∧ (∀ (db : DB) (id : EntityId) (b : BlogUpdateBody) (actor : UserId)
        (now : Millis) (db' : DB) (b0 : BlogDoc),
      db.blogs id = some b0 → b0.isDeleted = false →
      handleBlogUpdate db id b actor now = .ok db' →
      ∀ bl, db'.blogs id = some bl →
        bl.views = b0.views ∧ bl.isDeleted = b0.isDeleted
          ∧ bl.deletedAt = b0.deletedAt ∧ bl.createdBy = b0.createdBy
          ∧ (bl.slug ≠ b0.slug →
              ∃ tt, b.title = some tt ∧ tt ≠ b0.title ∧ bl.slug = genSlug tt now)
          ∧ (bl.publishedAt ≠ b0.publishedAt →
              b0.publishedAt = none ∧ bl.status = ContentStatus.published
                ∧ bl.status ≠ b0.status ∧ bl.publishedAt = some now)) :=
  ⟨eventUpdateFrame, blogUpdateFrame⟩

/-- Witness for C10: the malicious bodies `bodyC10` and `bodyC10b`
(legitimate title/status plus forged `views`, `isDeleted`, `deletedAt`,
`createdBy`, `publishedAt` and `slug`) leave those fields framed on the event
and on the blog, yielding the hook-computed slug and publish timestamp. -/
theorem c10_update_frame_witness :
    (eC10res.views = baseEvent.views ∧ eC10res.isDeleted = baseEvent.isDeleted
      ∧ eC10res.deletedAt = baseEvent.deletedAt
      ∧ eC10res.createdBy = baseEvent.createdBy
      ∧ (eC10res.slug ≠ baseEvent.slug →
          ∃ tt, bodyC10.title = some tt ∧ tt ≠ baseEvent.title
            ∧ eC10res.slug = genSlug tt 700)
      ∧ (eC10res.publishedAt ≠ baseEvent.publishedAt →
          baseEvent.publishedAt = none ∧ eC10res.status = ContentStatus.published
            ∧ eC10res.status ≠ baseEvent.status ∧ eC10res.publishedAt = some 700))
    ∧ (bC10res.views = baseBlog.views ∧ bC10res.isDeleted = baseBlog.isDeleted
      ∧ bC10res.deletedAt = baseBlog.deletedAt
      ∧ bC10res.createdBy = baseBlog.createdBy
      ∧ (bC10res.slug ≠ baseBlog.slug →
          ∃ tt, bodyC10b.title = some tt ∧ tt ≠ baseBlog.title
            ∧ bC10res.slug = genSlug tt 700)
      ∧ (bC10res.publishedAt ≠ baseBlog.publishedAt →
          baseBlog.publishedAt = none ∧ bC10res.status = ContentStatus.published
            ∧ bC10res.status ≠ baseBlog.status ∧ bC10res.publishedAt = some 700)) :=
  ⟨c10_update_frame.1 dbC10 1 bodyC10 9 700 dbC10res baseEvent rfl rfl rfl
      eC10res rfl,
   c10_update_frame.2 dbC10b 2 bodyC10b 9 700 dbC10bres baseBlog rfl rfl rfl
      bC10res rfl⟩

end Shrishay
